import Mathlib

/-!
Task-processing server (`src/server.js`): embedding and verified properties.

JavaScript strings are sequences of UTF-16 code units; they are embedded as lists of
natural numbers, one per code unit.  Effects (clock, random source, provider calls,
HTTP POSTs, timers) are answered by an explicit `World`; every effectful function
returns the list of external calls it issued together with its result.

The file as shipped is not JavaScript.  Five of its lines (508, 554, 560, 624, 625)
spell a template literal whose back-ticks and dollar signs carry a backslash, in code
position; the lexer rejects the backslash, loading the module throws `SyntaxError`, and
the shipped program answers no request and issues no call (`loadModule`,
`shippedProcessTask`, `shippedSendToEvaluationUrl`, `shippedHandlePost`).

`fileContentsParams` (line 508), `httpError` and `sendLoop` (lines 554, 560) embed the
repaired program instead, in which each of these lines is the template literal it
spells; so do `pushCodeToRepo`, `sendToEvaluationUrl`, `processTask` and `handlePost`,
which are built on them.  Every theorem about one of these eight definitions is a
theorem about the repaired program, not about the file as shipped.
-/

namespace Server

/-! ## JavaScript strings -/

/-- A JavaScript string: its UTF-16 code units in order. -/
abbrev JSString := List Nat

/-- The UTF-16 code units of one Unicode scalar value. -/
def utf16Units (c : Char) : List Nat :=
  if c.toNat < 0x10000 then [c.toNat]
  else [0xD800 + (c.toNat - 0x10000) / 0x400, 0xDC00 + (c.toNat - 0x10000) % 0x400]

/-- A string literal of the source as a JavaScript string. -/
def js (s : String) : JSString := s.toList.flatMap utf16Units

/-- Decimal digits of `n`, most significant first, as code units (`fuel` bounds the
number of digits). -/
def decimalDigits : Nat → Nat → JSString
  | 0, _ => []
  | fuel + 1, n =>
    if n < 10 then [48 + n] else decimalDigits fuel (n / 10) ++ [48 + n % 10]

/-- The string a template literal produces for a non-negative integer number below
`1e21` (`Date.now()`, `getFullYear()`): its decimal digits. -/
def numberToString (n : Nat) : JSString := decimalDigits (n + 1) n

/-- `s.startsWith(p)`. -/
def startsWith (s p : JSString) : Bool := p.isPrefixOf s

/-- `s.endsWith(p)`. -/
def endsWith (s p : JSString) : Bool := p.isSuffixOf s

/-- `s.includes(p)`: `p` occurs in `s` as a contiguous run of code units. -/
def includes : JSString → JSString → Bool
  | [], p => p.isPrefixOf []
  | u :: rest, p => p.isPrefixOf (u :: rest) || includes rest p

/-- `s.split(sep)` for a one-unit separator: the pieces between separators, never an
empty array. -/
def split (sep : Nat) : JSString → List JSString
  | [] => [[]]
  | u :: rest =>
    if u = sep then [] :: split sep rest
    else
      match split sep rest with
      | [] => [[u]]
      | p :: ps => (u :: p) :: ps

/-- One code unit under `toLowerCase`.  The mappings that produce an ASCII letter are
exact: `A`-`Z`, U+212A KELVIN SIGN (to `k`) and U+0130 (to `i` followed by U+0307).
Every other unit is kept; the Unicode mappings left out never produce an ASCII unit,
so the ASCII keyword tests of `generateHTMLFromBrief` are unaffected. -/
def lowerUnit (u : Nat) : List Nat :=
  if 65 ≤ u ∧ u ≤ 90 then [u + 32]
  else if u = 0x212A then [107]
  else if u = 0x130 then [105, 0x307]
  else [u]

/-- `s.toLowerCase()`. -/
def toLowerCase (s : JSString) : JSString := s.flatMap lowerUnit

/-- A code unit matched by the character class `[a-zA-Z0-9-]`. -/
def isIdentUnit (u : Nat) : Bool :=
  (97 ≤ u && u ≤ 122) || (65 ≤ u && u ≤ 90) || (48 ≤ u && u ≤ 57) || u = 45

/-- `s.replace(re, replacement)` for a global regular expression `re` that matches
exactly one code unit, namely those satisfying `p`: scanning left to right, a
matching unit is replaced and any other unit is kept. -/
def replaceAll (p : Nat → Bool) (replacement : JSString) : JSString → JSString
  | [] => []
  | u :: rest =>
    if p u then replacement ++ replaceAll p replacement rest
    else u :: replaceAll p replacement rest

/-- The first capture group of `header.match(/data:([^;]+)/)`: at the leftmost place
where `data:` is followed by a unit other than `;`, the longest run of such units. -/
def matchDataMime : JSString → Option JSString
  | [] => none
  | u :: rest =>
    if startsWith (u :: rest) (js "data:") ∧ ((u :: rest).drop 5).takeWhile (· ≠ 59) ≠ [] then
      some (((u :: rest).drop 5).takeWhile (· ≠ 59))
    else matchDataMime rest

/-! ## Buffers: UTF-8 and base64 -/

/-- UTF-8 bytes of one code point. -/
def utf8Bytes (cp : Nat) : List Nat :=
  if cp < 0x80 then [cp]
  else if cp < 0x800 then [0xC0 + cp / 0x40, 0x80 + cp % 0x40]
  else if cp < 0x10000 then [0xE0 + cp / 0x1000, 0x80 + cp / 0x40 % 0x40, 0x80 + cp % 0x40]
  else [0xF0 + cp / 0x40000 % 8, 0x80 + cp / 0x1000 % 0x40, 0x80 + cp / 0x40 % 0x40,
        0x80 + cp % 0x40]

/-- `Buffer.from(s)`: the UTF-8 encoding of a string.  A surrogate pair encodes its
code point; an unpaired surrogate encodes U+FFFD. -/
def bufferFromString : JSString → List Nat
  | [] => []
  | u :: rest =>
    if 0xD800 ≤ u ∧ u < 0xDC00 then
      match rest with
      | [] => [0xEF, 0xBF, 0xBD]
      | v :: rest2 =>
        if 0xDC00 ≤ v ∧ v < 0xE000 then
          utf8Bytes (0x10000 + (u - 0xD800) * 0x400 + (v - 0xDC00)) ++ bufferFromString rest2
        else [0xEF, 0xBF, 0xBD] ++ bufferFromString (v :: rest2)
    else if 0xDC00 ≤ u ∧ u < 0xE000 then [0xEF, 0xBF, 0xBD] ++ bufferFromString rest
    else utf8Bytes u ++ bufferFromString rest

/-- The UTF-16 code units of a decoded code point. -/
def codePointUnits (cp : Nat) : List Nat :=
  if cp < 0x10000 then [cp]
  else [0xD800 + (cp - 0x10000) / 0x400, 0xDC00 + (cp - 0x10000) % 0x400]

/-- What a byte starts when no sequence is pending: an ASCII character, a multi-byte
sequence (bits so far, continuation bytes needed, bounds on the next byte), or an
invalid byte. -/
inductive Utf8Lead
  | ascii (cp : Nat)
  | lead (cp needed lower upper : Nat)
  | invalid

/-- Classification of a first byte (the table of the WHATWG UTF-8 decoder). -/
def utf8Lead (b : Nat) : Utf8Lead :=
  if b ≤ 0x7F then .ascii b
  else if 0xC2 ≤ b ∧ b ≤ 0xDF then .lead (b % 0x20) 1 0x80 0xBF
  else if 0xE0 ≤ b ∧ b ≤ 0xEF then
    .lead (b % 0x10) 2 (if b = 0xE0 then 0xA0 else 0x80) (if b = 0xED then 0x9F else 0xBF)
  else if 0xF0 ≤ b ∧ b ≤ 0xF4 then
    .lead (b % 8) 3 (if b = 0xF0 then 0x90 else 0x80) (if b = 0xF4 then 0x8F else 0xBF)
  else .invalid

/-- UTF-8 decoding with replacement: `needed` continuation bytes are pending for the
code point `cp`, the next one must lie in `[lower, upper]`.  An ill-formed sequence
yields one U+FFFD and decoding resumes at the offending byte. -/
def utf8DecodeFrom : List Nat → Nat → Nat → Nat → Nat → JSString
  | [], _, needed, _, _ => if needed = 0 then [] else [0xFFFD]
  | b :: rest, cp, needed, lower, upper =>
    if needed = 0 ∨ b < lower ∨ upper < b then
      (if needed = 0 then [] else [0xFFFD]) ++
        match utf8Lead b with
        | .ascii c => c :: utf8DecodeFrom rest 0 0 0x80 0xBF
        | .lead c n lo hi => utf8DecodeFrom rest c n lo hi
        | .invalid => 0xFFFD :: utf8DecodeFrom rest 0 0 0x80 0xBF
    else if needed = 1 then
      codePointUnits (cp * 0x40 + b % 0x40) ++ utf8DecodeFrom rest 0 0 0x80 0xBF
    else utf8DecodeFrom rest (cp * 0x40 + b % 0x40) (needed - 1) 0x80 0xBF

/-- `buf.toString()`: the bytes decoded as UTF-8. -/
def bufferToString (bytes : List Nat) : JSString := utf8DecodeFrom bytes 0 0 0x80 0xBF

/-- The character of the base64 alphabet for a 6-bit value. -/
def base64Char (v : Nat) : Nat :=
  if v < 26 then 65 + v
  else if v < 52 then 97 + (v - 26)
  else if v < 62 then 48 + (v - 52)
  else if v = 62 then 43
  else 47

/-- `buf.toString('base64')`: standard base64 with `=` padding. -/
def bufferToBase64 : List Nat → JSString
  | [] => []
  | [a] => [base64Char (a / 4), base64Char (a % 4 * 16), 61, 61]
  | [a, b] => [base64Char (a / 4), base64Char (a % 4 * 16 + b / 16), base64Char (b % 16 * 4), 61]
  | a :: b :: c :: rest =>
    [base64Char (a / 4), base64Char (a % 4 * 16 + b / 16), base64Char (b % 16 * 4 + c / 64),
      base64Char (c % 64)] ++ bufferToBase64 rest

/-- The 6-bit value of a base64 character; the decoder also accepts the URL-safe
characters `-` and `_`. -/
def unbase64 (u : Nat) : Option Nat :=
  if 65 ≤ u ∧ u ≤ 90 then some (u - 65)
  else if 97 ≤ u ∧ u ≤ 122 then some (u - 97 + 26)
  else if 48 ≤ u ∧ u ≤ 57 then some (u - 48 + 52)
  else if u = 43 ∨ u = 45 then some 62
  else if u = 47 ∨ u = 95 then some 63
  else none

/-- The 6-bit values a base64 text carries: units outside the alphabet are skipped and
decoding stops at the first `=`. -/
def base64Values : JSString → List Nat
  | [] => []
  | u :: rest =>
    if u = 61 then []
    else
      match unbase64 u with
      | some v => v :: base64Values rest
      | none => base64Values rest

/-- Bytes from 6-bit values, four values to three bytes; a final group of two or three
values gives one or two bytes, a single left-over value gives none. -/
def base64Bytes : List Nat → List Nat
  | a :: b :: c :: d :: rest =>
    [a * 4 + b / 16, b % 16 * 16 + c / 4, c % 4 * 64 + d] ++ base64Bytes rest
  | [a, b, c] => [a * 4 + b / 16, b % 16 * 16 + c / 4]
  | [a, b] => [a * 4 + b / 16]
  | _ => []

/-- `Buffer.from(s, 'base64')`. -/
def bufferFromBase64 (s : JSString) : List Nat := base64Bytes (base64Values s)

/-! ## Content generation -/

/-- A thrown JavaScript error, identified by its message. -/
structure JSError where
  message : JSString
  deriving DecidableEq, Repr

/-- An attachment of a request: a name and, when present, a URL. -/
structure Attachment where
  name : JSString
  url : Option JSString
  deriving DecidableEq, Repr

/-- An attachment after decoding, as handed to the page generators. -/
structure AttachmentFile where
  name : JSString
  content : JSString
  mimeType : JSString
  deriving DecidableEq, Repr

/-- The error `Buffer.from(undefined, 'base64')` throws. -/
def bufferFromUndefinedError : JSError :=
  ⟨js ("The first argument must be of type string or an instance of Buffer, ArrayBuffer, " ++
    "or Array or an Array-like Object. Received undefined")⟩

/-- The callback of `attachments.map` in `generateApp`.  A URL that is non-empty and
starts with `data:` is split at its commas into `[header, data]`; `data` is
`undefined` when the URL has no comma, and `Buffer.from` then throws. -/
def decodeAttachment (att : Attachment) : Except JSError AttachmentFile :=
  match att.url with
  | none => .ok { name := att.name, content := [], mimeType := js "text/plain" }
  | some url =>
    if url ≠ [] ∧ startsWith url (js "data:") then
      match split 44 url with
      | header :: data :: _ =>
        .ok { name := att.name
              content := bufferToString (bufferFromBase64 data)
              mimeType := (matchDataMime header).getD (js "text/plain") }
      | _ => .error bufferFromUndefinedError
    else .ok { name := att.name, content := [], mimeType := js "text/plain" }

/-- The call `attachments.map(att => ...)`: attachments are decoded in order and the
first throw ends the mapping. -/
def decodeAttachments : List Attachment → Except JSError (List AttachmentFile)
  | [] => .ok []
  | att :: rest =>
    match decodeAttachment att with
    | .error e => .error e
    | .ok file =>
      match decodeAttachments rest with
      | .error e => .error e
      | .ok files => .ok (file :: files)

/-- Literal text segment 0 of the template string of generateCaptchaSolver. -/
def generateCaptchaSolverText0 : String := String.intercalate "\n" [
  "<!DOCTYPE html>",
  "<html lang=\"en\">",
  "<head>",
  "    <meta charset=\"UTF-8\">",
  "    <meta name=\"viewport\" content=\"width=device-width, initial-scale=1.0\">",
  "    <title>Captcha Solver</title>",
  "    <link href=\"https://cdn.jsdelivr.net/npm/bootstrap@5.3.0/dist/css/bootstrap.min.css\" rel=\"stylesheet\">",
  "</head>",
  "<body>",
  "    <div class=\"container mt-5\">",
  "        <div class=\"row justify-content-center\">",
  "            <div class=\"col-md-8\">",
  "                <div class=\"card\">",
  "                    <div class=\"card-header\">",
  "                        <h2>Captcha Solver</h2>",
  "                    </div>",
  "                    <div class=\"card-body\">",
  "                        <div id=\"captcha-container\" class=\"text-center mb-3\">",
  "                            <img id=\"captcha-image\" src=\"\" alt=\"Captcha Image\" class=\"img-fluid\" style=\"max-width: 300px;\">",
  "                        </div>",
  "                        <div class=\"mb-3\">",
  "                            <label for=\"captcha-url\" class=\"form-label\">Captcha URL:</label>",
  "                            <input type=\"url\" class=\"form-control\" id=\"captcha-url\" placeholder=\"Enter captcha image URL\">",
  "                        </div>",
  "                        <div class=\"mb-3\">",
  "                            <button class=\"btn btn-primary\" onclick=\"loadCaptcha()\">Load Captcha</button>",
  "                            <button class=\"btn btn-success\" onclick=\"solveCaptcha()\">Solve Captcha</button>",
  "                        </div>",
  "                        <div id=\"result\" class=\"alert\" style=\"display: none;\"></div>",
  "                    </div>",
  "                </div>",
  "            </div>",
  "        </div>",
  "    </div>",
  "",
  "    <script>",
  "        function loadCaptcha() \x7b",
  "            const urlParams = new URLSearchParams(window.location.search);",
  "            const captchaUrl = urlParams.get('url') || document.getElementById('captcha-url').value;",
  "            ",
  "            if (captchaUrl) \x7b",
  "                document.getElementById('captcha-image').src = captchaUrl;",
  "            \x7d",
  "        \x7d",
  "",
  "        function solveCaptcha() \x7b",
  "            // Simple captcha solving simulation",
  "            const solutions = ['HELLO', 'WORLD', 'TEST', 'CODE', 'SOLVE'];",
  "            const randomSolution = solutions[Math.floor(Math.random() * solutions.length)];",
  "            ",
  "            const resultDiv = document.getElementById('result');",
  "            resultDiv.className = 'alert alert-success';",
  "            resultDiv.style.display = 'block';",
  "            resultDiv.textContent = `Solved: $\x7brandomSolution\x7d`;",
  "        \x7d",
  "",
  "        // Auto-load captcha if URL parameter is present",
  "        window.addEventListener('load', loadCaptcha);",
  "    </script>",
  "</body>",
  "</html>"]

/-- Literal text segment 0 of the template string of generateSalesSummary. -/
def generateSalesSummaryText0 : String := String.intercalate "\n" [
  "<!DOCTYPE html>",
  "<html lang=\"en\">",
  "<head>",
  "    <meta charset=\"UTF-8\">",
  "    <meta name=\"viewport\" content=\"width=device-width, initial-scale=1.0\">",
  "    <title>Sales Summary</title>",
  "    <link href=\"https://cdn.jsdelivr.net/npm/bootstrap@5.3.0/dist/css/bootstrap.min.css\" rel=\"stylesheet\">",
  "</head>",
  "<body>",
  "    <div class=\"container mt-5\">",
  "        <h1>Sales Summary</h1>",
  "        <div id=\"total-sales\" class=\"alert alert-info\">",
  "            <h3>Total Sales: $<span id=\"total-amount\">0</span></h3>",
  "        </div>",
  "        <table class=\"table table-striped\">",
  "            <thead>",
  "                <tr>",
  "                    <th>Product</th>",
  "                    <th>Sales</th>",
  "                </tr>",
  "            </thead>",
  "            <tbody id=\"sales-table\">",
  "            </tbody>",
  "        </table>",
  "    </div>",
  "",
  "    <script>",
  "        const csvData = `"]

/-- Literal text segment 1 of the template string of generateSalesSummary. -/
def generateSalesSummaryText1 : String := String.intercalate "\n" [
  "`;",
  "        ",
  "        function parseCsvAndCalculate() \x7b",
  "            if (!csvData) return;",
  "            ",
  "            const lines = csvData.split('\\n').filter(line => line.trim());",
  "            const headers = lines[0].split(',').map(h => h.trim());",
  "            const salesIndex = headers.findIndex(h => h.toLowerCase().includes('sales'));",
  "            ",
  "            let total = 0;",
  "            const tableBody = document.getElementById('sales-table');",
  "            ",
  "            for (let i = 1; i < lines.length; i++) \x7b",
  "                const values = lines[i].split(',').map(v => v.trim());",
  "                if (values.length > salesIndex && salesIndex >= 0) \x7b",
  "                    const sales = parseFloat(values[salesIndex]) || 0;",
  "                    total += sales;",
  "                    ",
  "                    const row = document.createElement('tr');",
  "                    row.innerHTML = `<td>$\x7bvalues[0] || 'Product ' + i\x7d</td><td>$$\x7bsales\x7d</td>`;",
  "                    tableBody.appendChild(row);",
  "                \x7d",
  "            \x7d",
  "            ",
  "            document.getElementById('total-amount').textContent = total.toFixed(2);",
  "        \x7d",
  "        ",
  "        parseCsvAndCalculate();",
  "    </script>",
  "</body>",
  "</html>"]

/-- Literal text segment 0 of the template string of generateMarkdownConverter. -/
def generateMarkdownConverterText0 : String := String.intercalate "\n" [
  "<!DOCTYPE html>",
  "<html lang=\"en\">",
  "<head>",
  "    <meta charset=\"UTF-8\">",
  "    <meta name=\"viewport\" content=\"width=device-width, initial-scale=1.0\">",
  "    <title>Markdown to HTML Converter</title>",
  "    <link href=\"https://cdn.jsdelivr.net/npm/bootstrap@5.3.0/dist/css/bootstrap.min.css\" rel=\"stylesheet\">",
  "    <link rel=\"stylesheet\" href=\"https://cdnjs.cloudflare.com/ajax/libs/highlight.js/11.9.0/styles/default.min.css\">",
  "</head>",
  "<body>",
  "    <div class=\"container mt-5\">",
  "        <h1>Markdown to HTML Converter</h1>",
  "        <div id=\"markdown-output\" class=\"border p-3\"></div>",
  "    </div>",
  "",
  "    <script src=\"https://cdn.jsdelivr.net/npm/marked/marked.min.js\"></script>",
  "    <script src=\"https://cdnjs.cloudflare.com/ajax/libs/highlight.js/11.9.0/highlight.min.js\"></script>",
  "    <script>",
  "        const markdownContent = `"]

/-- Literal text segment 1 of the template string of generateMarkdownConverter. -/
def generateMarkdownConverterText1 : String := String.intercalate "\n" [
  "`;",
  "        ",
  "        function convertMarkdown() \x7b",
  "            const html = marked.parse(markdownContent || '# Sample Markdown\\n\\nThis is a sample markdown document.');",
  "            document.getElementById('markdown-output').innerHTML = html;",
  "            ",
  "            // Highlight code blocks",
  "            hljs.highlightAll();",
  "        \x7d",
  "        ",
  "        convertMarkdown();",
  "    </script>",
  "</body>",
  "</html>"]

/-- Literal text segment 0 of the template string of generateGitHubUserApp. -/
def generateGitHubUserAppText0 : String := String.intercalate "\n" [
  "<!DOCTYPE html>",
  "<html lang=\"en\">",
  "<head>",
  "    <meta charset=\"UTF-8\">",
  "    <meta name=\"viewport\" content=\"width=device-width, initial-scale=1.0\">",
  "    <title>GitHub User Info</title>",
  "    <link href=\"https://cdn.jsdelivr.net/npm/bootstrap@5.3.0/dist/css/bootstrap.min.css\" rel=\"stylesheet\">",
  "</head>",
  "<body>",
  "    <div class=\"container mt-5\">",
  "        <div class=\"row justify-content-center\">",
  "            <div class=\"col-md-6\">",
  "                <div class=\"card\">",
  "                    <div class=\"card-header\">",
  "                        <h2>GitHub User Info</h2>",
  "                    </div>",
  "                    <div class=\"card-body\">",
  "                        <form id=\"github-user-"]

/-- Literal text segment 1 of the template string of generateGitHubUserApp. -/
def generateGitHubUserAppText1 : String := String.intercalate "\n" [
  "\">",
  "                            <div class=\"mb-3\">",
  "                                <label for=\"username\" class=\"form-label\">GitHub Username:</label>",
  "                                <input type=\"text\" class=\"form-control\" id=\"username\" required>",
  "                            </div>",
  "                            <button type=\"submit\" class=\"btn btn-primary\">Get User Info</button>",
  "                        </form>",
  "                        <div class=\"mt-3\">",
  "                            <p><strong>Account Created:</strong> <span id=\"github-created-at\">-</span></p>",
  "                        </div>",
  "                    </div>",
  "                </div>",
  "            </div>",
  "        </div>",
  "    </div>",
  "",
  "    <script>",
  "        document.getElementById('github-user-"]

/-- Literal text segment 2 of the template string of generateGitHubUserApp. -/
def generateGitHubUserAppText2 : String := String.intercalate "\n" [
  "').addEventListener('submit', async function(e) \x7b",
  "            e.preventDefault();",
  "            ",
  "            const username = document.getElementById('username').value;",
  "            if (!username) return;",
  "            ",
  "            try \x7b",
  "                const urlParams = new URLSearchParams(window.location.search);",
  "                const token = urlParams.get('token');",
  "                ",
  "                const headers = \x7b\x7d;",
  "                if (token) \x7b",
  "                    headers['Authorization'] = `token $\x7btoken\x7d`;",
  "                \x7d",
  "                ",
  "                const response = await fetch(`https://api.github.com/users/$\x7busername\x7d`, \x7b headers \x7d);",
  "                const data = await response.json();",
  "                ",
  "                if (data.created_at) \x7b",
  "                    const createdDate = new Date(data.created_at);",
  "                    document.getElementById('github-created-at').textContent = createdDate.toISOString().split('T')[0];",
  "                \x7d",
  "            \x7d catch (error) \x7b",
  "                console.error('Error fetching user data:', error);",
  "                document.getElementById('github-created-at').textContent = 'Error loading data';",
  "            \x7d",
  "        \x7d);",
  "    </script>",
  "</body>",
  "</html>"]

/-- Literal text segment 0 of the template string of generateReadme. -/
def generateReadmeText0 : String := String.intercalate "\n" [
  "# Generated Application",
  "",
  "## Overview",
  "This application was automatically generated based on the following brief:",
  "",
  "> "]

/-- Literal text segment 1 of the template string of generateReadme. -/
def generateReadmeText1 : String := String.intercalate "\n" [
  "",
  "",
  "## Features",
  "- Responsive Bootstrap UI",
  "- Dynamic content processing",
  "- GitHub Pages deployment ready",
  "",
  "## Setup",
  "1. Clone this repository",
  "2. Open index.html in a web browser",
  "3. Or deploy to GitHub Pages for online access",
  "",
  "## Usage",
  "- The application is designed to fulfill the specific requirements outlined in the brief",
  "- All functionality is contained within the HTML file for easy deployment",
  "",
  "## Code Structure",
  "- `index.html` - Main application file with embedded CSS and JavaScript",
  "- `README.md` - This documentation file",
  "- `LICENSE` - MIT License",
  "",
  "## License",
  "MIT License - see LICENSE file for details.",
  ""]

/-- Literal text segment 0 of the template string of getMITLicense. -/
def getMITLicenseText0 : String := String.intercalate "\n" [
  "MIT License",
  "",
  "Copyright (c) "]

/-- Literal text segment 1 of the template string of getMITLicense. -/
def getMITLicenseText1 : String := String.intercalate "\n" [
  " Student",
  "",
  "Permission is hereby granted, free of charge, to any person obtaining a copy",
  "of this software and associated documentation files (the \"Software\"), to deal",
  "in the Software without restriction, including without limitation the rights",
  "to use, copy, modify, merge, publish, distribute, sublicense, and/or sell",
  "copies of the Software, and to permit persons to whom the Software is",
  "furnished to do so, subject to the following conditions:",
  "",
  "The above copyright notice and this permission notice shall be included in all",
  "copies or substantial portions of the Software.",
  "",
  "THE SOFTWARE IS PROVIDED \"AS IS\", WITHOUT WARRANTY OF ANY KIND, EXPRESS OR",
  "IMPLIED, INCLUDING BUT NOT LIMITED TO THE WARRANTIES OF MERCHANTABILITY,",
  "FITNESS FOR A PARTICULAR PURPOSE AND NONINFRINGEMENT. IN NO EVENT SHALL THE",
  "AUTHORS OR COPYRIGHT HOLDERS BE LIABLE FOR ANY CLAIM, DAMAGES OR OTHER",
  "LIABILITY, WHETHER IN AN ACTION OF CONTRACT, TORT OR OTHERWISE, ARISING FROM,",
  "OUT OF OR IN CONNECTION WITH THE SOFTWARE OR THE USE OR OTHER DEALINGS IN THE",
  "SOFTWARE."]

/-- Literal text segment 0 of the template string of generateGenericApp. -/
def generateGenericAppText0 : String := String.intercalate "\n" [
  "<!DOCTYPE html>",
  "<html lang=\"en\">",
  "<head>",
  "    <meta charset=\"UTF-8\">",
  "    <meta name=\"viewport\" content=\"width=device-width, initial-scale=1.0\">",
  "    <title>Generated App</title>",
  "    <link href=\"https://cdn.jsdelivr.net/npm/bootstrap@5.3.0/dist/css/bootstrap.min.css\" rel=\"stylesheet\">",
  "</head>",
  "<body>",
  "    <div class=\"container mt-5\">",
  "        <div class=\"row\">",
  "            <div class=\"col-12\">",
  "                <div class=\"card\">",
  "                    <div class=\"card-header\">",
  "                        <h1>Generated Application</h1>",
  "                    </div>",
  "                    <div class=\"card-body\">",
  "                        <div class=\"alert alert-info\">",
  "                            <h4>Brief:</h4>",
  "                            <p>"]

/-- Literal text segment 1 of the template string of generateGenericApp. -/
def generateGenericAppText1 : String := String.intercalate "\n" [
  "</p>",
  "                        </div>",
  "                        ",
  "                        <div class=\"mt-4\">",
  "                            <h3>Attachments:</h3>",
  "                            <div id=\"attachments-container\">",
  "                                "]

/-- Literal text segment 0 of the per-attachment template inside generateGenericApp. -/
def attachmentCardText0 : String := String.intercalate "\n" [
  "",
  "                                    <div class=\"card mt-2\">",
  "                                        <div class=\"card-header\">",
  "                                            <strong>"]

/-- Literal text segment 1 of the per-attachment template inside generateGenericApp. -/
def attachmentCardText1 : String := String.intercalate "\n" [
  "</strong> ("]

/-- Literal text segment 2 of the per-attachment template inside generateGenericApp. -/
def attachmentCardText2 : String := String.intercalate "\n" [
  ")",
  "                                        </div>",
  "                                        <div class=\"card-body\">",
  "                                            <pre><code>"]

/-- Literal text segment 3 of the per-attachment template inside generateGenericApp. -/
def attachmentCardText3 : String := String.intercalate "\n" [
  ""]

/-- Literal text segment 4 of the per-attachment template inside generateGenericApp. -/
def attachmentCardText4 : String := String.intercalate "\n" [
  "</code></pre>",
  "                                        </div>",
  "                                    </div>",
  "                                "]

/-- Literal text segment 2 of the template string of generateGenericApp. -/
def generateGenericAppText2 : String := String.intercalate "\n" [
  "",
  "                            </div>",
  "                        </div>",
  "                        ",
  "                        <div class=\"mt-4\">",
  "                            <button class=\"btn btn-success\" onclick=\"processData()\">Process Data</button>",
  "                            <div id=\"output\" class=\"mt-3\"></div>",
  "                        </div>",
  "                    </div>",
  "                </div>",
  "            </div>",
  "        </div>",
  "    </div>",
  "",
  "    <script>",
  "        function processData() \x7b",
  "            document.getElementById('output').innerHTML = ",
  "                '<div class=\"alert alert-success\">Data processed successfully!</div>';",
  "        \x7d",
  "    </script>",
  "</body>",
  "</html>"]

/-- The value left in a variable by
`attachmentFiles.forEach(file => { if (file.name.endsWith(ext)) v = file.content })`
starting from the empty string: the content of the last file with that extension. -/
def lastContentWithSuffix (ext : JSString) (attachmentFiles : List AttachmentFile) : JSString :=
  attachmentFiles.foldl (fun v file => if endsWith file.name ext then file.content else v) []

/-- `generateCaptchaSolver(attachmentFiles)`. -/
def generateCaptchaSolver (_attachmentFiles : List AttachmentFile) : JSString :=
  js generateCaptchaSolverText0

/-- `generateSalesSummary(attachmentFiles)`. -/
def generateSalesSummary (attachmentFiles : List AttachmentFile) : JSString :=
  js generateSalesSummaryText0 ++ lastContentWithSuffix (js ".csv") attachmentFiles ++
    js generateSalesSummaryText1

/-- `generateMarkdownConverter(attachmentFiles)`. -/
def generateMarkdownConverter (attachmentFiles : List AttachmentFile) : JSString :=
  js generateMarkdownConverterText0 ++ lastContentWithSuffix (js ".md") attachmentFiles ++
    js generateMarkdownConverterText1

/-- `generateGitHubUserApp(attachmentFiles)`; `mathRandomBase36` is the value of
`Math.random().toString(36)` and `seed` is its `substr(2, 9)`. -/
def generateGitHubUserApp (mathRandomBase36 : JSString) (_attachmentFiles : List AttachmentFile) :
    JSString :=
  let seed := (mathRandomBase36.drop 2).take 9
  js generateGitHubUserAppText0 ++ seed ++ js generateGitHubUserAppText1 ++ seed ++
    js generateGitHubUserAppText2

/-- The card emitted for one attachment by `generateGenericApp`. -/
def attachmentCard (file : AttachmentFile) : JSString :=
  js attachmentCardText0 ++ file.name ++ js attachmentCardText1 ++ file.mimeType ++
    js attachmentCardText2 ++ file.content.take 500 ++ js attachmentCardText3 ++
    (if file.content.length > 500 then js "..." else []) ++ js attachmentCardText4

/-- `generateGenericApp(brief, attachmentFiles)`. -/
def generateGenericApp (brief : JSString) (attachmentFiles : List AttachmentFile) : JSString :=
  js generateGenericAppText0 ++ brief ++ js generateGenericAppText1 ++
    attachmentFiles.flatMap attachmentCard ++ js generateGenericAppText2

/-- `generateHTMLFromBrief(brief, attachmentFiles, checks)`: keyword dispatch on the
lower-cased brief, first match wins. -/
def generateHTMLFromBrief (mathRandomBase36 : JSString) (brief : JSString)
    (attachmentFiles : List AttachmentFile) (_checks : List JSString) : JSString :=
  let lowerBrief := toLowerCase brief
  if includes lowerBrief (js "captcha") then generateCaptchaSolver attachmentFiles
  else if includes lowerBrief (js "sales") || includes lowerBrief (js "csv") then
    generateSalesSummary attachmentFiles
  else if includes lowerBrief (js "markdown") then generateMarkdownConverter attachmentFiles
  else if includes lowerBrief (js "github") then
    generateGitHubUserApp mathRandomBase36 attachmentFiles
  else generateGenericApp brief attachmentFiles

/-- `generateReadme(brief)`. -/
def generateReadme (brief : JSString) : JSString :=
  js generateReadmeText0 ++ brief ++ js generateReadmeText1

/-- `getMITLicense()`; `fullYear` is the value of `new Date().getFullYear()`. -/
def getMITLicense (fullYear : Nat) : JSString :=
  js getMITLicenseText0 ++ numberToString fullYear ++ js getMITLicenseText1

/-- A generated file set: the own properties of the returned object in insertion
order, as `Object.entries` lists them. -/
abbrev FileSet := List (JSString × JSString)

/-- `generateApp(brief, attachments = [], checks = [])`; a missing (`undefined`)
argument takes its default. -/
def generateApp (mathRandomBase36 : JSString) (fullYear : Nat) (brief : JSString)
    (attachments : Option (List Attachment)) (checks : Option (List JSString)) :
    Except JSError FileSet :=
  match decodeAttachments (attachments.getD []) with
  | .error e => .error e
  | .ok attachmentFiles =>
    .ok [(js "index.html",
            generateHTMLFromBrief mathRandomBase36 brief attachmentFiles (checks.getD [])),
         (js "README.md", generateReadme brief),
         (js "LICENSE", getMITLicense fullYear)]

/-! ## Requests, results, the outside world -/

/-- Server configuration read at start-up. -/
structure Config where
  STUDENT_SECRET : JSString
  GITHUB_USERNAME : JSString
  deriving DecidableEq, Repr

/-- The fields `processTask` destructures from the request body. -/
structure TaskData where
  email : JSString
  secret : JSString
  task : JSString
  round : Int
  nonce : JSString
  brief : JSString
  checks : Option (List JSString)
  evaluation_url : JSString
  attachments : Option (List Attachment)
  deriving DecidableEq, Repr

/-- The record `responseData` built and returned by `processTask`. -/
structure ResponseData where
  email : JSString
  task : JSString
  round : Int
  nonce : JSString
  repo_url : JSString
  commit_sha : JSString
  pages_url : JSString
  deriving DecidableEq, Repr

/-- Arguments of `octokit.rest.repos.createForAuthenticatedUser`. -/
structure CreateRepoParams where
  name : JSString
  description : JSString
  isPrivate : Bool
  has_issues : Bool
  has_projects : Bool
  has_wiki : Bool
  auto_init : Bool
  deriving DecidableEq, Repr

/-- Arguments of `octokit.rest.repos.createOrUpdateFileContents`. -/
structure FileContentsParams where
  owner : JSString
  repo : JSString
  path : JSString
  message : JSString
  content : JSString
  deriving DecidableEq, Repr

/-- Arguments of `octokit.rest.repos.createPagesSite`. -/
structure PagesSiteParams where
  owner : JSString
  repo : JSString
  branch : JSString
  path : JSString
  deriving DecidableEq, Repr

/-- Arguments of `octokit.rest.repos.listCommits`. -/
structure ListCommitsParams where
  owner : JSString
  repo : JSString
  deriving DecidableEq, Repr

/-- An element of the `data` array answered by `listCommits`. -/
structure Commit where
  sha : JSString
  deriving DecidableEq, Repr

/-- How one `fetch` call ends: a response (with its `ok` flag, status and status
text) or a thrown transport error. -/
inductive FetchOutcome
  | response (ok : Bool) (status : Nat) (statusText : JSString)
  | threw (error : JSError)
  deriving DecidableEq, Repr

/-- An external call issued by the server. -/
inductive Call
  | createForAuthenticatedUser (params : CreateRepoParams)
  | createOrUpdateFileContents (params : FileContentsParams)
  | createPagesSite (params : PagesSiteParams)
  | listCommits (params : ListCommitsParams)
  | fetchPost (url : JSString) (contentType : JSString) (body : ResponseData)
  | setTimeout (delay : Nat)
  deriving DecidableEq, Repr

/-- Everything outside the process that one request observes: the clock (`Date.now()`
is a whole number of milliseconds, at most 8.64e15), the random source, the provider's
answer to each call, whether the `node-fetch` module loads, and the outcome of the
`n`-th POST (counted from 0) to a URL with a body.  The provider calls of one run have
pairwise different arguments, so an answer per argument list covers every behaviour of
the provider; the POSTs of one run all have the same arguments and are told apart by
their index. -/
structure World where
  dateNow : Nat
  fullYear : Nat
  mathRandomBase36 : JSString
  createForAuthenticatedUser : CreateRepoParams → Except JSError Unit
  createOrUpdateFileContents : FileContentsParams → Except JSError Unit
  createPagesSite : PagesSiteParams → Except JSError Unit
  listCommits : ListCommitsParams → Except JSError (List Commit)
  importNodeFetch : Except JSError Unit
  fetch : Nat → JSString → ResponseData → FetchOutcome

/-- The outcome of running an effectful function: the external calls it issued, in
order, and either its return value or the error it threw. -/
structure Run (α : Type) where
  calls : List Call
  result : Except JSError α

/-! ## The task processor -/

/-- The expression `task.replace(/[^a-zA-Z0-9-]/g, '-')`: every code unit outside the
class is replaced by a hyphen. -/
def sanitizeTask (task : JSString) : JSString :=
  replaceAll (fun u => !isIdentUnit u) (js "-") task

/-- The repository name built in `processTask` from the task identifier and the
value of `Date.now()`. -/
def repoName (task : JSString) (dateNow : Nat) : JSString :=
  sanitizeTask task ++ js "-" ++ numberToString dateNow

/-- The arguments `createGitHubRepo` passes to the provider. -/
def createRepoParams (repoName description : JSString) : CreateRepoParams :=
  { name := repoName, description := description, isPrivate := false, has_issues := true,
    has_projects := true, has_wiki := true, auto_init := false }

/-- `createGitHubRepo(repoName, description)`: one provider call; a failure is
rethrown. -/
def createGitHubRepo (w : World) (repoName description : JSString) : Run Unit :=
  { calls := [.createForAuthenticatedUser (createRepoParams repoName description)]
    result := w.createForAuthenticatedUser (createRepoParams repoName description) }

/-- The arguments `pushCodeToRepo` passes for one entry of the file set.  Repaired:
line 508 as shipped is a backslash-escaped template in code position, which does not
parse; `message` is the template literal that line spells, `Add ` followed by the
file name. -/
def fileContentsParams (cfg : Config) (repoName : JSString) (entry : JSString × JSString) :
    FileContentsParams :=
  { owner := cfg.GITHUB_USERNAME, repo := repoName, path := entry.1,
    message := js "Add " ++ entry.1,
    content := bufferToBase64 (bufferFromString entry.2) }

/-- `pushCodeToRepo(repoName, files, commitMessage)`: one write per entry, in order;
the first failing write ends the loop and its error is rethrown.
Repaired program: the loop body holds line 508, which does not parse as shipped (see
`fileContentsParams`); the shipped module never issues a write. -/
def pushCodeToRepo (cfg : Config) (w : World) (repoName : JSString) :
    FileSet → JSString → Run Unit
  | [], _ => { calls := [], result := .ok () }
  | entry :: rest, commitMessage =>
    match w.createOrUpdateFileContents (fileContentsParams cfg repoName entry) with
    | .error e =>
      { calls := [.createOrUpdateFileContents (fileContentsParams cfg repoName entry)]
        result := .error e }
    | .ok _ =>
      { calls := .createOrUpdateFileContents (fileContentsParams cfg repoName entry) ::
          (pushCodeToRepo cfg w repoName rest commitMessage).calls
        result := (pushCodeToRepo cfg w repoName rest commitMessage).result }

/-- The arguments `enableGitHubPages` passes to the provider. -/
def pagesSiteParams (cfg : Config) (repoName : JSString) : PagesSiteParams :=
  { owner := cfg.GITHUB_USERNAME, repo := repoName, branch := js "main", path := js "/" }

/-- `enableGitHubPages(repoName)`: one provider call; a failure is caught (a warning
is logged) and the function returns normally. -/
def enableGitHubPages (cfg : Config) (w : World) (repoName : JSString) : Run Unit :=
  { calls := [.createPagesSite (pagesSiteParams cfg repoName)]
    result :=
      match w.createPagesSite (pagesSiteParams cfg repoName) with
      | .ok _ => .ok ()
      | .error _ => .ok () }

/-- The error thrown inside the retry loop for a response whose `ok` flag is false:
`HTTP <status>: <statusText>`.  Repaired: line 554 as shipped is a backslash-escaped template in
code position, which does not parse; the message is the template literal it spells. -/
def httpError (status : Nat) (statusText : JSString) : JSError :=
  ⟨js "HTTP " ++ numberToString status ++ js ": " ++ statusText⟩

/-- What the body of the inner `try` throws for an outcome of `fetch`: nothing when the
response has `ok`, the HTTP error for any other response, the transport error when
`fetch` itself threw. -/
def attemptError : FetchOutcome → Option JSError
  | .response true _ _ => none
  | .response false status statusText => some (httpError status statusText)
  | .threw error => some error

/-- The POST issued by one attempt. -/
def postCall (evaluationUrl : JSString) (data : ResponseData) : Call :=
  .fetchPost evaluationUrl (js "application/json") data

/-- The `while (retries > 0)` loop of `sendToEvaluationUrl`; `attempt` counts the
POSTs already made.  An attempt that throws nothing returns; otherwise `retries` is
decremented, the error is rethrown when none is left, and else the loop waits `delay`
and doubles it.
Repaired program: lines 554 (the `throw` for a response without `ok`) and 560 (the log
line before the wait) do not parse as shipped; they are read as the template literals
they spell, and the shipped module never issues a POST. -/
def sendLoop (w : World) (evaluationUrl : JSString) (data : ResponseData) :
    Nat → Nat → Nat → Run Unit
  | 0, _, _ => { calls := [], result := .ok () }
  | retries + 1, delay, attempt =>
    match attemptError (w.fetch attempt evaluationUrl data) with
    | none => { calls := [postCall evaluationUrl data], result := .ok () }
    | some error =>
      if retries = 0 then { calls := [postCall evaluationUrl data], result := .error error }
      else
        { calls := postCall evaluationUrl data :: .setTimeout delay ::
            (sendLoop w evaluationUrl data retries (delay * 2) (attempt + 1)).calls
          result := (sendLoop w evaluationUrl data retries (delay * 2) (attempt + 1)).result }

/-- `sendToEvaluationUrl(evaluationUrl, data)`: load `node-fetch`, run the retry loop
with 5 retries and an initial delay of 1000 ms; whatever is thrown inside is caught
and logged, so the function always returns normally.  Repaired program: built on
`sendLoop`. -/
def sendToEvaluationUrl (w : World) (evaluationUrl : JSString) (data : ResponseData) :
    Run Unit :=
  match w.importNodeFetch with
  | .error _ => { calls := [], result := .ok () }
  | .ok _ =>
    { calls := (sendLoop w evaluationUrl data 5 1000 0).calls
      result :=
        match (sendLoop w evaluationUrl data 5 1000 0).result with
        | .ok _ => .ok ()
        | .error _ => .ok () }

/-- The arguments of the `listCommits` call in `processTask`. -/
def listCommitsParams (cfg : Config) (repoName : JSString) : ListCommitsParams :=
  { owner := cfg.GITHUB_USERNAME, repo := repoName }

/-- The error thrown by `commits.data[0].sha` when the commit list is empty. -/
def noCommitError : JSError :=
  ⟨js "Cannot read properties of undefined (reading 'sha')"⟩

/-- The object `responseData` assembled in `processTask`. -/
def responseData (cfg : Config) (taskData : TaskData) (repoName commitSha : JSString) :
    ResponseData :=
  { email := taskData.email
    task := taskData.task
    round := taskData.round
    nonce := taskData.nonce
    repo_url := js "https://github.com/" ++ cfg.GITHUB_USERNAME ++ js "/" ++ repoName
    commit_sha := commitSha
    pages_url := js "https://" ++ cfg.GITHUB_USERNAME ++ js ".github.io/" ++ repoName ++ js "/" }

/-- `processTask(taskData)`: authorize, derive the repository name, generate the
files, create the repository, push the files, enable hosting, look up the commits,
assemble the result, notify, return the result.  A throw ends the run with the calls
issued so far.  Repaired program: built on `pushCodeToRepo` and
`sendToEvaluationUrl`; what the shipped module does is `shippedProcessTask`. -/
def processTask (cfg : Config) (w : World) (taskData : TaskData) : Run ResponseData :=
  if taskData.secret ≠ cfg.STUDENT_SECRET then
    { calls := [], result := .error ⟨js "Invalid secret"⟩ }
  else
    let repoName := repoName taskData.task w.dateNow
    match generateApp w.mathRandomBase36 w.fullYear taskData.brief taskData.attachments
        taskData.checks with
    | .error e => { calls := [], result := .error e }
    | .ok appCode =>
      let created := createGitHubRepo w repoName taskData.brief
      match created.result with
      | .error e => { calls := created.calls, result := .error e }
      | .ok _ =>
        let pushed := pushCodeToRepo cfg w repoName appCode taskData.brief
        match pushed.result with
        | .error e => { calls := created.calls ++ pushed.calls, result := .error e }
        | .ok _ =>
          let pages := enableGitHubPages cfg w repoName
          let provisioning :=
            created.calls ++ pushed.calls ++ pages.calls ++
              [Call.listCommits (listCommitsParams cfg repoName)]
          match w.listCommits (listCommitsParams cfg repoName) with
          | .error e => { calls := provisioning, result := .error e }
          | .ok [] => { calls := provisioning, result := .error noCommitError }
          | .ok (commit :: _) =>
            let responseData := responseData cfg taskData repoName commit.sha
            let sent := sendToEvaluationUrl w taskData.evaluation_url responseData
            { calls := provisioning ++ sent.calls, result := .ok responseData }

/-- The JSON body the POST handler answers with. -/
structure ResponseBody where
  success : Bool
  message : Option JSString
  data : Option ResponseData
  error : Option JSString
  deriving DecidableEq, Repr

/-- The handler of `POST /`: status 200 in both branches, `success: true` with the
result when `processTask` returns and `success: false` with the error message when it
throws.  Repaired program: built on `processTask`; what the shipped module does
is `shippedHandlePost`. -/
def handlePost (cfg : Config) (w : World) (body : TaskData) : Nat × ResponseBody :=
  match (processTask cfg w body).result with
  | .ok result =>
    (200, { success := true, message := some (js "Task processed successfully"),
            data := some result, error := none })
  | .error e => (200, { success := false, message := none, data := none, error := some e.message })


/-! ## The module as shipped -/

/-- The lines of `src/server.js`, with their numbers, that hold a backslash in code
position (outside every string, template literal, regular expression and comment): each
spells a template literal whose back-ticks and dollar signs carry a backslash. -/
def escapedTemplateLines : List (Nat × String) :=
  [(508, "          message: \\`Add \\$\x7bfilename\x7d\\`,"),
   (554, "            throw new Error(\\`HTTP \\$\x7bresponse.status\x7d: \\$\x7bresponse.statusText\x7d\\`);"),
   (560, "          console.log(\\`Retrying in \\$\x7bdelay\x7dms... (\\$\x7bretries\x7d retries left)\\`);"),
   (624, "  console.log(\\`Server running on port \\$\x7bPORT\x7d\\`);"),
   (625, "  console.log(\\`Environment: \\$\x7bprocess.env.NODE_ENV || 'development'\x7d\\`);")]

/-- Whether the JavaScript lexer rejects a line that starts in code position, given as
character codes.  In code position a backslash can only start the identifier escape
`\u`; any other backslash is no token.  The scan stops without a verdict at the first
quote, back-tick or slash, where code position may end, and at a `\u` escape. -/
def rejectedByLexer : List Nat → Bool
  | [] => false
  | c :: rest =>
    if c = 92 then rest.head? != some 117
    else if c = 34 ∨ c = 39 ∨ c = 96 ∨ c = 47 then false
    else rejectedByLexer rest

/-- The error Node throws for a character that starts no token. -/
def moduleSyntaxError : JSError := ⟨js "Invalid or unexpected token"⟩

/-- Loading the module: the file is parsed as a whole before its first statement runs,
and a line the lexer rejects makes the load throw `SyntaxError`. -/
def loadModule : Except JSError Unit :=
  if escapedTemplateLines.any (fun line => rejectedByLexer (line.2.toList.map Char.toNat)) then
    .error moduleSyntaxError
  else .ok ()

/-- What the shipped program does with a request.  When the module does not load,
`TaskProcessor` is never defined, no route is registered and `app.listen` is never
reached: the request is never handled (`none`) and no call is issued.  Were it to load,
the handler would run `processTask`. -/
def shippedProcessTask (cfg : Config) (w : World) (taskData : TaskData) :
    Option (Run ResponseData) :=
  match loadModule with
  | .error _ => none
  | .ok _ => some (processTask cfg w taskData)

/-- What the shipped program does with a notification: nothing when the module does not
load (`none`). -/
def shippedSendToEvaluationUrl (w : World) (evaluationUrl : JSString) (data : ResponseData) :
    Option (Run Unit) :=
  match loadModule with
  | .error _ => none
  | .ok _ => some (sendToEvaluationUrl w evaluationUrl data)

/-- What the shipped program answers to `POST /`: nothing when the module does not load
(`none`). -/
def shippedHandlePost (cfg : Config) (w : World) (body : TaskData) : Option (Nat × ResponseBody) :=
  match loadModule with
  | .error _ => none
  | .ok _ => some (handlePost cfg w body)

/-! ## Vocabulary of the statements -/

/-- The repository a provider call addresses; a POST or a timer addresses none. -/
def Call.repository : Call → Option JSString
  | .createForAuthenticatedUser params => some params.name
  | .createOrUpdateFileContents params => some params.repo
  | .createPagesSite params => some params.repo
  | .listCommits params => some params.repo
  | .fetchPost _ _ _ => none
  | .setTimeout _ => none

/-- Whether a call is an HTTP POST to the evaluation URL. -/
def Call.isFetchPost : Call → Bool
  | .fetchPost _ _ _ => true
  | _ => false

/-- Whether a call is one of the four provider operations. -/
def Call.isProvider : Call → Bool
  | .createForAuthenticatedUser _ => true
  | .createOrUpdateFileContents _ => true
  | .createPagesSite _ => true
  | .listCommits _ => true
  | _ => false

/-- Whether a call is a repository creation or a file write. -/
def Call.isCreateOrWrite : Call → Bool
  | .createForAuthenticatedUser _ => true
  | .createOrUpdateFileContents _ => true
  | _ => false

/-- The provider calls of a run that reaches the commit lookup: the creation, the
writes issued by `pushCodeToRepo`, the hosting-enable and the lookup. -/
def provisioningCalls (cfg : Config) (w : World) (taskData : TaskData) (files : FileSet) :
    List Call :=
  Call.createForAuthenticatedUser
      (createRepoParams (repoName taskData.task w.dateNow) taskData.brief) ::
    (pushCodeToRepo cfg w (repoName taskData.task w.dateNow) files taskData.brief).calls ++
    [Call.createPagesSite (pagesSiteParams cfg (repoName taskData.task w.dateNow)),
     Call.listCommits (listCommitsParams cfg (repoName taskData.task w.dateNow))]

/-- Whether an attempt succeeded: `fetch` answered and the response has `ok`. -/
def FetchOutcome.succeeded : FetchOutcome → Bool
  | .response ok _ _ => ok
  | .threw _ => false

/-- Whether `generateHTMLFromBrief` reaches `generateGitHubUserApp`, the one generator
that reads the random source: the lower-cased brief contains `github` and none of the
keywords tested before it. -/
def selectsGitHubUserApp (brief : JSString) : Bool :=
  !includes (toLowerCase brief) (js "captcha") &&
    !(includes (toLowerCase brief) (js "sales") || includes (toLowerCase brief) (js "csv")) &&
    !includes (toLowerCase brief) (js "markdown") &&
    includes (toLowerCase brief) (js "github")

/-- Decimal notation as the specification means it: the base-10 digits of `n`, most
significant first, as ASCII digits; `0` is written `0`. -/
def specDecimal (n : Nat) : JSString :=
  if n = 0 then [48] else (Nat.digits 10 n).reverse.map (48 + ·)

/-- The calls of a notification whose first `k` attempts fail and are each followed
by a wait, ended by one more POST: the wait after the `i`-th failed attempt (counted
from 1) is `1000 * 2 ^ (i - 1)` ms. -/
def retrySchedule (evaluationUrl : JSString) (data : ResponseData) (k : Nat) : List Call :=
  (List.range k).flatMap
      (fun i => [postCall evaluationUrl data, Call.setTimeout (1000 * 2 ^ i)]) ++
    [postCall evaluationUrl data]

/-! ## Sample configuration, request and worlds -/

/-- A configuration. -/
def sampleConfig : Config := { STUDENT_SECRET := js "s3cret", GITHUB_USERNAME := js "octo" }

/-- A request carrying the configured secret and one inline CSV attachment. -/
def sampleTask : TaskData :=
  { email := js "student@example.com", secret := js "s3cret", task := js "My Task!!", round := 1,
    nonce := js "nonce-1", brief := js "Show a sales summary", checks := none,
    evaluation_url := js "https://example.com/notify",
    attachments := some [{ name := js "data.csv",
                           url := some (js "data:text/csv;base64,UHJvZHVjdCxTYWxlcwpXaWRnZXQsMTAwCkdhZGdldCw1MA==") }] }

/-- A world in which every provider call and the first POST succeed. -/
def sampleWorld : World :=
  { dateNow := 1700000000000, fullYear := 2023, mathRandomBase36 := js "0.4fzyo82mvyr",
    createForAuthenticatedUser := fun _ => .ok (),
    createOrUpdateFileContents := fun _ => .ok (),
    createPagesSite := fun _ => .ok (),
    listCommits := fun _ => .ok [{ sha := js "9fceb02" }, { sha := js "1a2b3c4" }],
    importNodeFetch := .ok (),
    fetch := fun _ _ _ => .response true 200 (js "OK") }

/-- A provider error. -/
def sampleError : JSError := ⟨js "Validation Failed"⟩

/-- An attachment list with exactly one attachment named `*.csv`, given as a base64
data URI, and one more attachment whose URL starts with `data:` and has no comma. -/
def malformedAttachments : List Attachment :=
  [{ name := js "notes.txt", url := some (js "data:text/plain;base64") },
   { name := js "data.csv",
     url := some (js "data:text/csv;base64,UHJvZHVjdCxTYWxlcwpXaWRnZXQsMTAwCkdhZGdldCw1MA==") }]

/-- The attachment of `sampleTask` after decoding. -/
def sampleAttachmentFiles : List AttachmentFile :=
  [{ name := js "data.csv", content := js "Product,Sales\nWidget,100\nGadget,50",
     mimeType := js "text/csv" }]

/-- The file set generated for `sampleTask` in `sampleWorld`. -/
def sampleFiles : FileSet :=
  [(js "index.html", generateSalesSummary sampleAttachmentFiles),
   (js "README.md", generateReadme sampleTask.brief),
   (js "LICENSE", getMITLicense 2023)]

/-- The world of `sampleWorld` with a provider that rejects the repository creation. -/
def createFailsWorld : World :=
  { sampleWorld with createForAuthenticatedUser := fun _ => .error sampleError }

/-- The world of `sampleWorld` with a provider that rejects the write of `README.md`. -/
def writeFailsWorld : World :=
  { sampleWorld with
    createOrUpdateFileContents := fun params =>
      if params.path = js "README.md" then .error sampleError else .ok () }

/-- The world of `sampleWorld` with a provider that reports no commit. -/
def noCommitWorld : World := { sampleWorld with listCommits := fun _ => .ok [] }

/-- The world of `sampleWorld` with a provider that refuses to enable hosting. -/
def hostingFailsWorld : World :=
  { sampleWorld with createPagesSite := fun _ => .error sampleError }

/-- The world of `sampleWorld` with an evaluation URL that is never reachable. -/
def unreachableWorld : World :=
  { sampleWorld with fetch := fun _ _ _ => .threw ⟨js "connect ECONNREFUSED"⟩ }

/-! ## Lemmas on strings -/

theorem js_hyphen : js "-" = [45] := by decide

theorem replaceAll_single (p : Nat → Bool) (r : Nat) (s : JSString) :
    replaceAll p [r] s = s.map (fun u => if p u then r else u) := by
  induction s with
  | nil => rfl
  | cons u rest ih => by_cases h : p u <;> simp [replaceAll, h, ih]

theorem sanitizeTask_eq_map (s : JSString) :
    sanitizeTask s = s.map (fun u => if isIdentUnit u then u else 45) := by
  unfold sanitizeTask
  rw [js_hyphen, replaceAll_single]
  apply List.map_congr_left
  intro u _
  cases isIdentUnit u <;> simp

theorem isIdentUnit_sanitizeTask (s : JSString) : ∀ u ∈ sanitizeTask s, isIdentUnit u = true := by
  rw [sanitizeTask_eq_map]
  intro u hu
  obtain ⟨v, _, rfl⟩ := List.mem_map.1 hu
  by_cases h : isIdentUnit v = true
  · rw [if_pos h]; exact h
  · rw [if_neg h]; decide

theorem decimalDigits_eq_specDecimal (fuel : Nat) :
    ∀ n, n < fuel → decimalDigits fuel n = specDecimal n := by
  induction fuel with
  | zero => intro n h; omega
  | succ fuel ih =>
    intro n h
    unfold decimalDigits
    by_cases h10 : n < 10
    · rw [if_pos h10]
      unfold specDecimal
      by_cases h0 : n = 0
      · simp [h0]
      · rw [if_neg h0, Nat.digits_of_lt 10 n h0 h10]; rfl
    · rw [if_neg h10, ih (n / 10) (by omega)]
      unfold specDecimal
      have h1 : n / 10 ≠ 0 := by omega
      have h2 : n ≠ 0 := by omega
      have hd : Nat.digits 10 n = (n % 10) :: Nat.digits 10 (n / 10) :=
        Nat.digits_def' (by norm_num) (by omega)
      rw [if_neg h1, if_neg h2, hd]
      simp only [List.reverse_cons, List.map_append, List.map_cons, List.map_nil]

theorem numberToString_eq_specDecimal (n : Nat) : numberToString n = specDecimal n :=
  decimalDigits_eq_specDecimal (n + 1) n (Nat.lt_succ_self n)

theorem ofDigits_specDecimal (n : Nat) :
    Nat.ofDigits 10 ((specDecimal n).map (· - 48)).reverse = n := by
  unfold specDecimal
  by_cases h0 : n = 0
  · simp [h0]
  · rw [if_neg h0, List.map_map, ← List.map_reverse, List.reverse_reverse]
    have : ((fun x => x - 48) ∘ fun x => 48 + x) = id := by
      funext x; simp
    rw [this, List.map_id, Nat.ofDigits_digits]

theorem numberToString_injective : Function.Injective numberToString := by
  intro a b h
  rw [numberToString_eq_specDecimal, numberToString_eq_specDecimal] at h
  rw [← ofDigits_specDecimal a, ← ofDigits_specDecimal b, h]

theorem isIdentUnit_specDecimal (n : Nat) : ∀ u ∈ specDecimal n, isIdentUnit u = true := by
  unfold specDecimal
  intro u hu
  by_cases h0 : n = 0
  · rw [if_pos h0] at hu
    simp at hu; subst hu; decide
  · rw [if_neg h0] at hu
    obtain ⟨d, hd, rfl⟩ := List.mem_map.1 hu
    have hlt : d < 10 := Nat.digits_lt_base (by norm_num) (List.mem_reverse.1 hd)
    simp only [isIdentUnit, Bool.or_eq_true, Bool.and_eq_true, decide_eq_true_eq]
    omega

/-! ## Project identifier -/

/-- C8: the project identifier is the sanitized task identifier, a hyphen and the
timestamp in decimal; the sanitized identifier has the length of the task identifier,
keeps every code unit of `[A-Za-z0-9-]` in place and has a hyphen at every other
position; hence every code unit of the project identifier is in `[A-Za-z0-9-]`. -/
theorem repoName_shape (s : JSString) (t : Nat) :
    repoName s t = sanitizeTask s ++ js "-" ++ specDecimal t ∧
    (sanitizeTask s).length = s.length ∧
    (∀ (i u : Nat), s[i]? = some u →
      (sanitizeTask s)[i]? = some (if isIdentUnit u = true then u else 45)) ∧
    ∀ u ∈ repoName s t, isIdentUnit u = true := by
  refine ⟨?_, ?_, ?_, ?_⟩
  · rw [repoName, numberToString_eq_specDecimal]
  · rw [sanitizeTask_eq_map, List.length_map]
  · intro i u h
    rw [sanitizeTask_eq_map, List.getElem?_map, h]
    rfl
  · intro u hu
    rw [repoName, numberToString_eq_specDecimal, js_hyphen] at hu
    simp only [List.mem_append, List.mem_singleton] at hu
    rcases hu with (h | h) | h
    · exact isIdentUnit_sanitizeTask s u h
    · subst h; decide
    · exact isIdentUnit_specDecimal t u h

/-- C9 as stated fails: for the task identifier `My Task!!` and the timestamp
1700000000000 the project identifier is not `My-Task----1700000000000`, which has four
hyphens after `Task`. -/
theorem repoName_scenario_four_hyphens_fails :
    repoName (js "My Task!!") 1700000000000 ≠ js "My-Task----1700000000000" := by
  decide

/-- C9, amended: for the task identifier `My Task!!` and the timestamp 1700000000000
the project identifier is `My-Task---1700000000000`: one hyphen for the blank, one for
each of the two `!`, and the separating hyphen before the timestamp. -/
theorem repoName_scenario :
    repoName (js "My Task!!") 1700000000000 = js "My-Task---1700000000000" := by
  decide

/-- C10: for a fixed task identifier, two different timestamps give two different
project identifiers. -/
theorem repoName_injective_in_timestamp (s : JSString) (t1 t2 : Nat) (h : t1 ≠ t2) :
    repoName s t1 ≠ repoName s t2 := by
  intro heq
  unfold repoName at heq
  exact h (numberToString_injective (List.append_cancel_left heq))

theorem repoName_injective_in_timestamp_witness :
    (1700000000000 : Nat) ≠ 1700000000001 ∧
      repoName (js "My Task!!") 1700000000000 ≠ repoName (js "My Task!!") 1700000000001 :=
  ⟨by decide, repoName_injective_in_timestamp (js "My Task!!") 1700000000000 1700000000001
    (by decide)⟩

/-! ## Authorization -/

theorem processTask_unauthorized (cfg : Config) (w : World) (taskData : TaskData)
    (h : taskData.secret ≠ cfg.STUDENT_SECRET) :
    processTask cfg w taskData = { calls := [], result := .error ⟨js "Invalid secret"⟩ } := by
  unfold processTask
  rw [if_pos h]

/-- C1 in the repaired program (the escaped templates of lines 508, 554, 560 read
as template literals; not the file as shipped): a request whose secret differs from the configured secret fails with the error
`Invalid secret` and issues no external call at all: no repository creation, file
write, hosting-enable, commit lookup or notification POST. -/
theorem processTask_invalid_secret (cfg : Config) (w : World) (taskData : TaskData)
    (h : taskData.secret ≠ cfg.STUDENT_SECRET) :
    (processTask cfg w taskData).result = .error ⟨js "Invalid secret"⟩ ∧
    (processTask cfg w taskData).calls = [] := by
  rw [processTask_unauthorized cfg w taskData h]
  exact ⟨rfl, rfl⟩

theorem processTask_invalid_secret_witness :
    ({ sampleTask with secret := js "guess" } : TaskData).secret ≠ sampleConfig.STUDENT_SECRET ∧
    (processTask sampleConfig sampleWorld { sampleTask with secret := js "guess" }).result =
      .error ⟨js "Invalid secret"⟩ ∧
    (processTask sampleConfig sampleWorld { sampleTask with secret := js "guess" }).calls = [] :=
  ⟨by decide, processTask_invalid_secret sampleConfig sampleWorld _ (by decide)⟩


/-! ## Lemmas on the provisioning pipeline -/

theorem pushCodeToRepo_congr (cfg : Config) (w1 w2 : World) (name : JSString)
    (h : w1.createOrUpdateFileContents = w2.createOrUpdateFileContents) (files : FileSet)
    (msg : JSString) : pushCodeToRepo cfg w1 name files msg = pushCodeToRepo cfg w2 name files msg := by
  induction files with
  | nil => rfl
  | cons entry rest ih => simp only [pushCodeToRepo, h, ih]

theorem pushCodeToRepo_all_ok (cfg : Config) (w : World) (name : JSString) (files : FileSet)
    (msg : JSString)
    (h : ∀ entry ∈ files, w.createOrUpdateFileContents (fileContentsParams cfg name entry) = .ok ()) :
    pushCodeToRepo cfg w name files msg =
      { calls := files.map (fun entry => .createOrUpdateFileContents (fileContentsParams cfg name entry))
        result := .ok () } := by
  induction files with
  | nil => rfl
  | cons entry rest ih =>
    have h1 := h entry (List.mem_cons_self _ _)
    have h2 := ih (fun x hx => h x (List.mem_cons_of_mem _ hx))
    simp only [pushCodeToRepo, h1, h2, List.map_cons]

theorem pushCodeToRepo_first_failure (cfg : Config) (w : World) (name : JSString)
    (pre : FileSet) (entry : JSString × JSString) (post : FileSet) (msg : JSString) (e : JSError)
    (hpre : ∀ x ∈ pre, w.createOrUpdateFileContents (fileContentsParams cfg name x) = .ok ())
    (hfail : w.createOrUpdateFileContents (fileContentsParams cfg name entry) = .error e) :
    pushCodeToRepo cfg w name (pre ++ entry :: post) msg =
      { calls := (pre ++ [entry]).map
          (fun x => .createOrUpdateFileContents (fileContentsParams cfg name x))
        result := .error e } := by
  induction pre with
  | nil => simp only [List.nil_append, pushCodeToRepo, hfail, List.map_cons, List.map_nil]
  | cons x rest ih =>
    have h1 := hpre x (List.mem_cons_self _ _)
    have h2 := ih (fun y hy => hpre y (List.mem_cons_of_mem _ hy))
    show pushCodeToRepo cfg w name (x :: (rest ++ entry :: post)) msg = _
    rw [pushCodeToRepo, h1]
    simp only [h2, List.map_cons, List.cons_append]

theorem pushCodeToRepo_calls (cfg : Config) (w : World) (name : JSString) (files : FileSet)
    (msg : JSString) :
    ∀ c ∈ (pushCodeToRepo cfg w name files msg).calls,
      ∃ entry ∈ files, c = .createOrUpdateFileContents (fileContentsParams cfg name entry) := by
  induction files with
  | nil => intro c hc; simp [pushCodeToRepo] at hc
  | cons entry rest ih =>
    intro c hc
    unfold pushCodeToRepo at hc
    cases hw : w.createOrUpdateFileContents (fileContentsParams cfg name entry) with
    | error e =>
      rw [hw] at hc
      simp only [List.mem_singleton] at hc
      exact ⟨entry, List.mem_cons_self _ _, hc⟩
    | ok u =>
      rw [hw] at hc
      simp only [List.mem_cons] at hc
      rcases hc with hc | hc
      · exact ⟨entry, List.mem_cons_self _ _, hc⟩
      · obtain ⟨x, hx, hcx⟩ := ih c hc
        exact ⟨x, List.mem_cons_of_mem _ hx, hcx⟩

theorem pushCodeToRepo_error (cfg : Config) (w : World) (name : JSString) (files : FileSet)
    (msg : JSString) (e : JSError) (h : (pushCodeToRepo cfg w name files msg).result = .error e) :
    ∃ entry ∈ files,
      Call.createOrUpdateFileContents (fileContentsParams cfg name entry) ∈
        (pushCodeToRepo cfg w name files msg).calls ∧
      w.createOrUpdateFileContents (fileContentsParams cfg name entry) = .error e := by
  induction files with
  | nil => simp [pushCodeToRepo] at h
  | cons entry rest ih =>
    cases hw : w.createOrUpdateFileContents (fileContentsParams cfg name entry) with
    | error e1 =>
      rw [pushCodeToRepo, hw] at h
      simp only [Except.error.injEq] at h
      refine ⟨entry, List.mem_cons_self _ _, ?_, h ▸ hw⟩
      rw [pushCodeToRepo, hw]
      exact List.mem_singleton.2 rfl
    | ok u =>
      rw [pushCodeToRepo, hw] at h
      obtain ⟨x, hx, hcx, hwx⟩ := ih h
      refine ⟨x, List.mem_cons_of_mem _ hx, ?_, hwx⟩
      rw [pushCodeToRepo, hw]
      exact List.mem_cons_of_mem _ hcx

theorem pushCodeToRepo_ok_iff (cfg : Config) (w : World) (name : JSString) (files : FileSet)
    (msg : JSString) :
    (pushCodeToRepo cfg w name files msg).result = .ok () ↔
      ∀ entry ∈ files, w.createOrUpdateFileContents (fileContentsParams cfg name entry) = .ok () := by
  constructor
  · intro h
    induction files with
    | nil => intro x hx; simp at hx
    | cons entry rest ih =>
      unfold pushCodeToRepo at h
      cases hw : w.createOrUpdateFileContents (fileContentsParams cfg name entry) with
      | error e1 => rw [hw] at h; simp at h
      | ok u =>
        rw [hw] at h
        intro x hx
        rcases List.mem_cons.1 hx with rfl | hx
        · exact hw
        · exact ih h x hx
  · intro h
    rw [pushCodeToRepo_all_ok cfg w name files msg h]

theorem processTask_generate_error (cfg : Config) (w : World) (t : TaskData) (e : JSError)
    (hauth : t.secret = cfg.STUDENT_SECRET)
    (hgen : generateApp w.mathRandomBase36 w.fullYear t.brief t.attachments t.checks = .error e) :
    processTask cfg w t = { calls := [], result := .error e } := by
  simp [processTask, hauth, hgen]

theorem processTask_create_error (cfg : Config) (w : World) (t : TaskData) (files : FileSet)
    (e : JSError) (hauth : t.secret = cfg.STUDENT_SECRET)
    (hgen : generateApp w.mathRandomBase36 w.fullYear t.brief t.attachments t.checks = .ok files)
    (hcreate : w.createForAuthenticatedUser
      (createRepoParams (repoName t.task w.dateNow) t.brief) = .error e) :
    processTask cfg w t =
      { calls := [.createForAuthenticatedUser
          (createRepoParams (repoName t.task w.dateNow) t.brief)]
        result := .error e } := by
  simp [processTask, hauth, hgen, createGitHubRepo, hcreate]

theorem processTask_push_error (cfg : Config) (w : World) (t : TaskData) (files : FileSet)
    (e : JSError) (hauth : t.secret = cfg.STUDENT_SECRET)
    (hgen : generateApp w.mathRandomBase36 w.fullYear t.brief t.attachments t.checks = .ok files)
    (hcreate : w.createForAuthenticatedUser
      (createRepoParams (repoName t.task w.dateNow) t.brief) = .ok ())
    (hpush : (pushCodeToRepo cfg w (repoName t.task w.dateNow) files t.brief).result = .error e) :
    processTask cfg w t =
      { calls := .createForAuthenticatedUser
            (createRepoParams (repoName t.task w.dateNow) t.brief) ::
          (pushCodeToRepo cfg w (repoName t.task w.dateNow) files t.brief).calls
        result := .error e } := by
  simp [processTask, hauth, hgen, createGitHubRepo, hcreate, hpush]

theorem processTask_lookup_error (cfg : Config) (w : World) (t : TaskData) (files : FileSet)
    (e : JSError) (hauth : t.secret = cfg.STUDENT_SECRET)
    (hgen : generateApp w.mathRandomBase36 w.fullYear t.brief t.attachments t.checks = .ok files)
    (hcreate : w.createForAuthenticatedUser
      (createRepoParams (repoName t.task w.dateNow) t.brief) = .ok ())
    (hpush : (pushCodeToRepo cfg w (repoName t.task w.dateNow) files t.brief).result = .ok ())
    (hlist : w.listCommits (listCommitsParams cfg (repoName t.task w.dateNow)) = .error e) :
    processTask cfg w t =
      { calls := provisioningCalls cfg w t files, result := .error e } := by
  simp [processTask, hauth, hgen, createGitHubRepo, hcreate, hpush, hlist, provisioningCalls,
    enableGitHubPages]

theorem processTask_lookup_empty (cfg : Config) (w : World) (t : TaskData) (files : FileSet)
    (hauth : t.secret = cfg.STUDENT_SECRET)
    (hgen : generateApp w.mathRandomBase36 w.fullYear t.brief t.attachments t.checks = .ok files)
    (hcreate : w.createForAuthenticatedUser
      (createRepoParams (repoName t.task w.dateNow) t.brief) = .ok ())
    (hpush : (pushCodeToRepo cfg w (repoName t.task w.dateNow) files t.brief).result = .ok ())
    (hlist : w.listCommits (listCommitsParams cfg (repoName t.task w.dateNow)) = .ok []) :
    processTask cfg w t =
      { calls := provisioningCalls cfg w t files, result := .error noCommitError } := by
  simp [processTask, hauth, hgen, createGitHubRepo, hcreate, hpush, hlist, provisioningCalls,
    enableGitHubPages]

theorem processTask_success (cfg : Config) (w : World) (t : TaskData) (files : FileSet)
    (commit : Commit) (commits : List Commit) (hauth : t.secret = cfg.STUDENT_SECRET)
    (hgen : generateApp w.mathRandomBase36 w.fullYear t.brief t.attachments t.checks = .ok files)
    (hcreate : w.createForAuthenticatedUser
      (createRepoParams (repoName t.task w.dateNow) t.brief) = .ok ())
    (hpush : (pushCodeToRepo cfg w (repoName t.task w.dateNow) files t.brief).result = .ok ())
    (hlist : w.listCommits (listCommitsParams cfg (repoName t.task w.dateNow)) =
      .ok (commit :: commits)) :
    processTask cfg w t =
      { calls := provisioningCalls cfg w t files ++
          (sendToEvaluationUrl w t.evaluation_url
            (responseData cfg t (repoName t.task w.dateNow) commit.sha)).calls
        result := .ok (responseData cfg t (repoName t.task w.dateNow) commit.sha) } := by
  simp [processTask, hauth, hgen, createGitHubRepo, hcreate, hpush, hlist, provisioningCalls,
    enableGitHubPages]


theorem sampleTask_generateApp (w : World) (hy : w.fullYear = 2023) :
    generateApp w.mathRandomBase36 w.fullYear sampleTask.brief sampleTask.attachments
      sampleTask.checks = .ok sampleFiles := by
  rw [hy]
  rfl

theorem isProvider_provisioningCalls (cfg : Config) (w : World) (t : TaskData) (files : FileSet) :
    ∀ c ∈ provisioningCalls cfg w t files, c.isProvider = true := by
  intro c hc
  simp only [provisioningCalls, List.mem_cons, List.mem_append, List.mem_singleton,
    List.not_mem_nil, or_false] at hc
  rcases hc with (rfl | hc) | rfl | rfl
  · rfl
  · obtain ⟨entry, _, rfl⟩ := pushCodeToRepo_calls cfg w _ files _ c hc
    rfl
  · rfl
  · rfl

theorem repository_provisioningCalls (cfg : Config) (w : World) (t : TaskData) (files : FileSet) :
    ∀ c ∈ provisioningCalls cfg w t files, ∀ n, c.repository = some n →
      n = repoName t.task w.dateNow := by
  intro c hc n hn
  simp only [provisioningCalls, List.mem_cons, List.mem_append, List.mem_singleton,
    List.not_mem_nil, or_false] at hc
  rcases hc with (rfl | hc) | rfl | rfl
  · simpa [Call.repository, createRepoParams] using hn.symm
  · obtain ⟨entry, _, rfl⟩ := pushCodeToRepo_calls cfg w _ files _ c hc
    simpa [Call.repository, fileContentsParams] using hn.symm
  · simpa [Call.repository, pagesSiteParams] using hn.symm
  · simpa [Call.repository, listCommitsParams] using hn.symm

/-! ## Fatal and non-fatal provider failures -/

/-- C2 in the repaired program (the escaped templates of lines 508, 554, 560 read
as template literals; not the file as shipped): for an authorized request, a failing fatal provider step makes `processTask`
fail and nothing of a later step is called.  If the repository creation fails, every
call made is the creation itself (no file write, hosting-enable, commit lookup or
POST).  If the write of some generated file fails, every call made is the creation or
a file write (no hosting-enable, commit lookup or POST).  If the commit lookup fails or
returns an empty list, every call made is a provider call (no POST, no wait). -/
theorem processTask_fatal_step (cfg : Config) (w : World) (t : TaskData)
    (hauth : t.secret = cfg.STUDENT_SECRET) :
    (∀ e, w.createForAuthenticatedUser
          (createRepoParams (repoName t.task w.dateNow) t.brief) = .error e →
      (∃ e1, (processTask cfg w t).result = .error e1) ∧
      ∀ c ∈ (processTask cfg w t).calls,
        c = .createForAuthenticatedUser
          (createRepoParams (repoName t.task w.dateNow) t.brief)) ∧
    (∀ files entry e,
      generateApp w.mathRandomBase36 w.fullYear t.brief t.attachments t.checks = .ok files →
      entry ∈ files →
      w.createOrUpdateFileContents
          (fileContentsParams cfg (repoName t.task w.dateNow) entry) = .error e →
      (∃ e1, (processTask cfg w t).result = .error e1) ∧
      ∀ c ∈ (processTask cfg w t).calls, c.isCreateOrWrite = true) ∧
    ((∃ e, w.listCommits (listCommitsParams cfg (repoName t.task w.dateNow)) = .error e) ∨
        w.listCommits (listCommitsParams cfg (repoName t.task w.dateNow)) = .ok [] →
      (∃ e1, (processTask cfg w t).result = .error e1) ∧
      ∀ c ∈ (processTask cfg w t).calls, c.isProvider = true) := by
  cases hgen : generateApp w.mathRandomBase36 w.fullYear t.brief t.attachments t.checks with
  | error eg =>
    rw [processTask_generate_error cfg w t eg hauth hgen]
    refine ⟨fun _ _ => ⟨⟨eg, rfl⟩, ?_⟩, fun _ _ _ _ _ _ => ⟨⟨eg, rfl⟩, ?_⟩,
      fun _ => ⟨⟨eg, rfl⟩, ?_⟩⟩ <;> intro c hc <;> simp at hc
  | ok files =>
    cases hcreate : w.createForAuthenticatedUser
        (createRepoParams (repoName t.task w.dateNow) t.brief) with
    | error ec =>
      rw [processTask_create_error cfg w t files ec hauth hgen hcreate]
      refine ⟨fun _ _ => ⟨⟨ec, rfl⟩, ?_⟩, fun _ _ _ _ _ _ => ⟨⟨ec, rfl⟩, ?_⟩,
        fun _ => ⟨⟨ec, rfl⟩, ?_⟩⟩ <;> intro c hc <;>
        rw [List.mem_singleton.1 hc] <;> rfl
    | ok u =>
      refine ⟨fun e he => by simp at he, ?_, ?_⟩
      · intro files1 entry e hgen1 hmem hfail
        simp only [Except.ok.injEq] at hgen1
        subst hgen1
        cases hpush : (pushCodeToRepo cfg w (repoName t.task w.dateNow) files t.brief).result with
        | ok u1 =>
          have hall := (pushCodeToRepo_ok_iff cfg w _ files t.brief).1 hpush entry hmem
          rw [hfail] at hall
          simp at hall
        | error ep =>
          rw [processTask_push_error cfg w t files ep hauth hgen hcreate hpush]
          refine ⟨⟨ep, rfl⟩, ?_⟩
          intro c hc
          rcases List.mem_cons.1 hc with rfl | hc
          · rfl
          · obtain ⟨x, _, rfl⟩ := pushCodeToRepo_calls cfg w _ files _ c hc
            rfl
      · intro hlist
        cases hpush : (pushCodeToRepo cfg w (repoName t.task w.dateNow) files t.brief).result with
        | error ep =>
          rw [processTask_push_error cfg w t files ep hauth hgen hcreate hpush]
          refine ⟨⟨ep, rfl⟩, ?_⟩
          intro c hc
          rcases List.mem_cons.1 hc with rfl | hc
          · rfl
          · obtain ⟨x, _, rfl⟩ := pushCodeToRepo_calls cfg w _ files _ c hc
            rfl
        | ok u1 =>
          rcases hlist with ⟨e, he⟩ | he
          · rw [processTask_lookup_error cfg w t files e hauth hgen hcreate hpush he]
            exact ⟨⟨e, rfl⟩, isProvider_provisioningCalls cfg w t files⟩
          · rw [processTask_lookup_empty cfg w t files hauth hgen hcreate hpush he]
            exact ⟨⟨noCommitError, rfl⟩, isProvider_provisioningCalls cfg w t files⟩

theorem processTask_fatal_step_witness :
    sampleTask.secret = sampleConfig.STUDENT_SECRET ∧
    ((∃ e1, (processTask sampleConfig createFailsWorld sampleTask).result = .error e1) ∧
      ∀ c ∈ (processTask sampleConfig createFailsWorld sampleTask).calls,
        c = .createForAuthenticatedUser
          (createRepoParams (repoName sampleTask.task createFailsWorld.dateNow)
            sampleTask.brief)) ∧
    ((∃ e1, (processTask sampleConfig writeFailsWorld sampleTask).result = .error e1) ∧
      ∀ c ∈ (processTask sampleConfig writeFailsWorld sampleTask).calls,
        c.isCreateOrWrite = true) ∧
    ((∃ e1, (processTask sampleConfig noCommitWorld sampleTask).result = .error e1) ∧
      ∀ c ∈ (processTask sampleConfig noCommitWorld sampleTask).calls, c.isProvider = true) :=
  ⟨by decide,
   (processTask_fatal_step sampleConfig createFailsWorld sampleTask (by decide)).1
     sampleError rfl,
   (processTask_fatal_step sampleConfig writeFailsWorld sampleTask (by decide)).2.1
     sampleFiles (js "README.md", generateReadme sampleTask.brief) sampleError
     (sampleTask_generateApp writeFailsWorld rfl) (by simp [sampleFiles]) rfl,
   (processTask_fatal_step sampleConfig noCommitWorld sampleTask (by decide)).2.2
     (Or.inr rfl)⟩

theorem processTask_createPagesSite_irrelevant (cfg : Config) (w : World) (t : TaskData)
    (pages : PagesSiteParams → Except JSError Unit) :
    processTask cfg { w with createPagesSite := pages } t = processTask cfg w t := by
  have hpush : ∀ name files msg,
      pushCodeToRepo cfg { w with createPagesSite := pages } name files msg =
        pushCodeToRepo cfg w name files msg :=
    fun name files msg =>
      pushCodeToRepo_congr cfg { w with createPagesSite := pages } w name rfl files msg
  simp only [processTask, hpush, createGitHubRepo, enableGitHubPages, sendToEvaluationUrl]
  rfl

/-- C3 in the repaired program (the escaped templates of lines 508, 554, 560 read
as template literals; not the file as shipped): for an authorized request in which the repository creation succeeds (the
creation is called and answered with success), every file write that is issued is
answered with success and the commit lookup is answered with a non-empty list, a
failing hosting-enable call does not stop `processTask`: the hosting-enable is called,
the commit lookup is performed after it, the result is the successful Provisioning
Result with `pages_url = https://<owner>.github.io/<project>/`, and the run is the
same as with any other answer of the hosting-enable call, a successful one included. -/
theorem processTask_hosting_failure_not_fatal (cfg : Config) (w : World) (t : TaskData)
    (commit : Commit) (commits : List Commit) (e : JSError)
    (hauth : t.secret = cfg.STUDENT_SECRET)
    (hcreated : Call.createForAuthenticatedUser
      (createRepoParams (repoName t.task w.dateNow) t.brief) ∈ (processTask cfg w t).calls)
    (hcreate : w.createForAuthenticatedUser
      (createRepoParams (repoName t.task w.dateNow) t.brief) = .ok ())
    (hwrite : ∀ params, Call.createOrUpdateFileContents params ∈ (processTask cfg w t).calls →
      w.createOrUpdateFileContents params = .ok ())
    (hlist : w.listCommits (listCommitsParams cfg (repoName t.task w.dateNow)) =
      .ok (commit :: commits))
    (hpages : w.createPagesSite (pagesSiteParams cfg (repoName t.task w.dateNow)) = .error e) :
    Call.createPagesSite (pagesSiteParams cfg (repoName t.task w.dateNow)) ∈
      (processTask cfg w t).calls ∧
    Call.listCommits (listCommitsParams cfg (repoName t.task w.dateNow)) ∈
      (processTask cfg w t).calls ∧
    (∃ r, (processTask cfg w t).result = .ok r ∧
      r.pages_url = js "https://" ++ cfg.GITHUB_USERNAME ++ js ".github.io/" ++
        repoName t.task w.dateNow ++ js "/") ∧
    ∀ pages : PagesSiteParams → Except JSError Unit,
      processTask cfg { w with createPagesSite := pages } t = processTask cfg w t := by
  have _ := hpages
  cases hgen : generateApp w.mathRandomBase36 w.fullYear t.brief t.attachments t.checks with
  | error eg =>
    rw [processTask_generate_error cfg w t eg hauth hgen] at hcreated
    simp at hcreated
  | ok files =>
    cases hpush : (pushCodeToRepo cfg w (repoName t.task w.dateNow) files t.brief).result with
    | error ep =>
      obtain ⟨entry, _, hcall, hfail⟩ := pushCodeToRepo_error cfg w _ files t.brief ep hpush
      have hok := hwrite (fileContentsParams cfg (repoName t.task w.dateNow) entry) (by
        rw [processTask_push_error cfg w t files ep hauth hgen hcreate hpush]
        exact List.mem_cons_of_mem _ hcall)
      rw [hfail] at hok
      simp at hok
    | ok u =>
      rw [processTask_success cfg w t files commit commits hauth hgen hcreate hpush hlist]
      refine ⟨?_, ?_, ⟨_, rfl, rfl⟩, ?_⟩
      · simp [provisioningCalls]
      · simp [provisioningCalls]
      · intro pages
        rw [processTask_createPagesSite_irrelevant,
          processTask_success cfg w t files commit commits hauth hgen hcreate hpush hlist]

theorem processTask_hosting_failure_not_fatal_witness :
    sampleTask.secret = sampleConfig.STUDENT_SECRET ∧
    Call.createForAuthenticatedUser
        (createRepoParams (repoName sampleTask.task hostingFailsWorld.dateNow)
          sampleTask.brief) ∈
      (processTask sampleConfig hostingFailsWorld sampleTask).calls ∧
    hostingFailsWorld.createPagesSite
      (pagesSiteParams sampleConfig (repoName sampleTask.task hostingFailsWorld.dateNow)) =
        .error sampleError ∧
    Call.listCommits
        (listCommitsParams sampleConfig (repoName sampleTask.task hostingFailsWorld.dateNow)) ∈
      (processTask sampleConfig hostingFailsWorld sampleTask).calls ∧
    (∃ r, (processTask sampleConfig hostingFailsWorld sampleTask).result = .ok r ∧
      r.pages_url = js "https://" ++ sampleConfig.GITHUB_USERNAME ++ js ".github.io/" ++
        repoName sampleTask.task hostingFailsWorld.dateNow ++ js "/") ∧
    processTask sampleConfig { hostingFailsWorld with createPagesSite := fun _ => .ok () }
      sampleTask = processTask sampleConfig hostingFailsWorld sampleTask :=
  have hcreated : Call.createForAuthenticatedUser
      (createRepoParams (repoName sampleTask.task hostingFailsWorld.dateNow)
        sampleTask.brief) ∈
      (processTask sampleConfig hostingFailsWorld sampleTask).calls := by decide
  have h := processTask_hosting_failure_not_fatal sampleConfig hostingFailsWorld sampleTask
    { sha := js "9fceb02" } [{ sha := js "1a2b3c4" }] sampleError (by decide) hcreated rfl
    (fun _ _ => rfl) rfl rfl
  ⟨by decide, hcreated, rfl, h.2.1, h.2.2.1, h.2.2.2 (fun _ => .ok ())⟩

/-! ## The delivery notifier -/

theorem attemptError_eq_none_iff (o : FetchOutcome) :
    attemptError o = none ↔ o.succeeded = true := by
  cases o with
  | response ok status statusText => cases ok <;> simp [attemptError, FetchOutcome.succeeded]
  | threw error => simp [attemptError, FetchOutcome.succeeded]

theorem sendLoop_congr (w1 w2 : World) (url : JSString) (data : ResponseData)
    (h : w1.fetch = w2.fetch) :
    ∀ retries delay attempt,
      sendLoop w1 url data retries delay attempt = sendLoop w2 url data retries delay attempt := by
  intro retries
  induction retries with
  | zero => intro delay attempt; rfl
  | succ retries ih => intro delay attempt; simp only [sendLoop, h, ih]

theorem sendLoop_posts_le (w : World) (url : JSString) (data : ResponseData) :
    ∀ retries delay attempt,
      ((sendLoop w url data retries delay attempt).calls.filter Call.isFetchPost).length ≤
        retries := by
  intro retries
  induction retries with
  | zero => intro delay attempt; simp [sendLoop]
  | succ retries ih =>
    intro delay attempt
    rw [sendLoop]
    cases attemptError (w.fetch attempt url data) with
    | none => simp [postCall, Call.isFetchPost]
    | some error =>
      by_cases h0 : retries = 0
      · simp [h0, postCall, Call.isFetchPost]
      · have := ih (delay * 2) (attempt + 1)
        simp only [h0, if_false, postCall, List.filter_cons, Call.isFetchPost, if_true,
          List.length_cons]
        simpa using this

theorem retrySteps_succ (url : JSString) (data : ResponseData) (delay k : Nat) :
    (List.range (k + 1)).flatMap
        (fun i => [postCall url data, Call.setTimeout (delay * 2 ^ i)]) =
      postCall url data :: Call.setTimeout delay ::
        (List.range k).flatMap
          (fun i => [postCall url data, Call.setTimeout (delay * 2 * 2 ^ i)]) := by
  have h : ∀ i, delay * 2 ^ (i + 1) = delay * 2 * 2 ^ i := fun i => by ring
  rw [List.range_succ_eq_map, List.flatMap_cons, List.flatMap_map]
  simp [h]

theorem sendLoop_success_after (w : World) (url : JSString) (data : ResponseData) :
    ∀ k retries delay attempt, k < retries →
      (∀ i < k, (w.fetch (attempt + i) url data).succeeded = false) →
      (w.fetch (attempt + k) url data).succeeded = true →
      sendLoop w url data retries delay attempt =
        { calls := (List.range k).flatMap
              (fun i => [postCall url data, Call.setTimeout (delay * 2 ^ i)]) ++
            [postCall url data]
          result := .ok () } := by
  intro k
  induction k with
  | zero =>
    intro retries delay attempt hk _ hok
    obtain ⟨r, rfl⟩ : ∃ r, retries = r + 1 := ⟨retries - 1, by omega⟩
    rw [sendLoop, (attemptError_eq_none_iff _).2 (by simpa using hok)]
    rfl
  | succ k ih =>
    intro retries delay attempt hk hfail hok
    obtain ⟨r, rfl⟩ : ∃ r, retries = r + 1 := ⟨retries - 1, by omega⟩
    have h0 : (w.fetch attempt url data).succeeded = false := by simpa using hfail 0 (by omega)
    have hne : attemptError (w.fetch attempt url data) ≠ none := by
      rw [Ne, attemptError_eq_none_iff, h0]; simp
    obtain ⟨error, herr⟩ := Option.ne_none_iff_exists'.1 hne
    have hr : r ≠ 0 := by omega
    rw [sendLoop, herr]
    simp only [hr, if_false]
    rw [ih r (delay * 2) (attempt + 1) (by omega)
      (fun i hi => by simpa [Nat.add_assoc, Nat.add_comm 1 i] using hfail (i + 1) (by omega))
      (by simpa [Nat.add_assoc, Nat.add_comm 1 k] using hok), retrySteps_succ]
    rfl

theorem sendLoop_all_fail (w : World) (url : JSString) (data : ResponseData) :
    ∀ retries delay attempt,
      (∀ i < retries + 1, (w.fetch (attempt + i) url data).succeeded = false) →
      (sendLoop w url data (retries + 1) delay attempt).calls =
        (List.range retries).flatMap
            (fun i => [postCall url data, Call.setTimeout (delay * 2 ^ i)]) ++
          [postCall url data] := by
  intro retries
  induction retries with
  | zero =>
    intro delay attempt hfail
    have h0 : (w.fetch attempt url data).succeeded = false := by simpa using hfail 0 (by omega)
    have hne : attemptError (w.fetch attempt url data) ≠ none := by
      rw [Ne, attemptError_eq_none_iff, h0]; simp
    obtain ⟨error, herr⟩ := Option.ne_none_iff_exists'.1 hne
    rw [sendLoop, herr]
    rfl
  | succ r ih =>
    intro delay attempt hfail
    have h0 : (w.fetch attempt url data).succeeded = false := by simpa using hfail 0 (by omega)
    have hne : attemptError (w.fetch attempt url data) ≠ none := by
      rw [Ne, attemptError_eq_none_iff, h0]; simp
    obtain ⟨error, herr⟩ := Option.ne_none_iff_exists'.1 hne
    rw [sendLoop, herr]
    simp only [Nat.succ_ne_zero, if_false]
    rw [ih (delay * 2) (attempt + 1)
      (fun i hi => by simpa [Nat.add_assoc, Nat.add_comm 1 i] using hfail (i + 1) (by omega)),
      retrySteps_succ]
    rfl

/-- C4 in the repaired program (the escaped templates of lines 508, 554, 560 read
as template literals; not the file as shipped): whatever the outcomes of the POSTs, `sendToEvaluationUrl` issues at most 5
POSTs.  When the first `k` attempts fail (`k ≤ 4`) and the next one gets an ok
response, the calls are exactly `k` failed POSTs, each followed by the wait
`1000 * 2 ^ (i - 1)` ms after the `i`-th of them, and the successful POST, after which
it stops.  When all 5 attempts fail the calls are exactly 5 POSTs with the four waits
1000, 2000, 4000, 8000 ms between them and no wait after the fifth. -/
theorem sendToEvaluationUrl_retry_schedule (w : World) (url : JSString) (data : ResponseData) :
    ((sendToEvaluationUrl w url data).calls.filter Call.isFetchPost).length ≤ 5 ∧
    (∀ k, k ≤ 4 → w.importNodeFetch = .ok () →
      (∀ i < k, (w.fetch i url data).succeeded = false) →
      (w.fetch k url data).succeeded = true →
      (sendToEvaluationUrl w url data).calls = retrySchedule url data k) ∧
    (w.importNodeFetch = .ok () →
      (∀ i < 5, (w.fetch i url data).succeeded = false) →
      (sendToEvaluationUrl w url data).calls =
        [postCall url data, .setTimeout 1000, postCall url data, .setTimeout 2000,
         postCall url data, .setTimeout 4000, postCall url data, .setTimeout 8000,
         postCall url data]) := by
  refine ⟨?_, ?_, ?_⟩
  · unfold sendToEvaluationUrl
    cases w.importNodeFetch with
    | error e => simp
    | ok u => exact sendLoop_posts_le w url data 5 1000 0
  · intro k hk himport hfail hok
    unfold sendToEvaluationUrl
    rw [himport]
    simp only []
    rw [sendLoop_success_after w url data k 5 1000 0 (by omega)
      (fun i hi => by simpa using hfail i hi) (by simpa using hok)]
    rfl
  · intro himport hfail
    unfold sendToEvaluationUrl
    rw [himport]
    simp only []
    rw [sendLoop_all_fail w url data 4 1000 0 (fun i hi => by simpa using hfail i hi)]
    rfl

theorem sendToEvaluationUrl_retry_schedule_witness :
    (sendToEvaluationUrl unreachableWorld sampleTask.evaluation_url
        (responseData sampleConfig sampleTask (js "repo") (js "9fceb02"))).calls =
      [postCall sampleTask.evaluation_url
          (responseData sampleConfig sampleTask (js "repo") (js "9fceb02")),
        .setTimeout 1000,
        postCall sampleTask.evaluation_url
          (responseData sampleConfig sampleTask (js "repo") (js "9fceb02")),
        .setTimeout 2000,
        postCall sampleTask.evaluation_url
          (responseData sampleConfig sampleTask (js "repo") (js "9fceb02")),
        .setTimeout 4000,
        postCall sampleTask.evaluation_url
          (responseData sampleConfig sampleTask (js "repo") (js "9fceb02")),
        .setTimeout 8000,
        postCall sampleTask.evaluation_url
          (responseData sampleConfig sampleTask (js "repo") (js "9fceb02"))] :=
  (sendToEvaluationUrl_retry_schedule unreachableWorld sampleTask.evaluation_url
    (responseData sampleConfig sampleTask (js "repo") (js "9fceb02"))).2.2 rfl (fun _ _ => rfl)

theorem sendToEvaluationUrl_result (w : World) (url : JSString) (data : ResponseData) :
    (sendToEvaluationUrl w url data).result = .ok () := by
  unfold sendToEvaluationUrl
  cases w.importNodeFetch with
  | error e => rfl
  | ok u =>
    simp only []
    cases (sendLoop w url data 5 1000 0).result <;> rfl

theorem processTask_result_notification_irrelevant (cfg : Config) (w : World) (t : TaskData)
    (load : Except JSError Unit) (fetch : Nat → JSString → ResponseData → FetchOutcome) :
    (processTask cfg { w with importNodeFetch := load, fetch := fetch } t).result =
      (processTask cfg w t).result := by
  have hpush : ∀ name files msg,
      pushCodeToRepo cfg { w with importNodeFetch := load, fetch := fetch } name files msg =
        pushCodeToRepo cfg w name files msg :=
    fun name files msg =>
      pushCodeToRepo_congr cfg { w with importNodeFetch := load, fetch := fetch } w name rfl
        files msg
  simp only [processTask, hpush, createGitHubRepo, enableGitHubPages]
  split
  · rfl
  · split
    · rfl
    · split
      · rfl
      · split
        · rfl
        · split <;> rfl

/-- C5 in the repaired program (the escaped templates of lines 508, 554, 560 read
as template literals; not the file as shipped): `sendToEvaluationUrl` returns normally for every URL, payload and sequence of
POST outcomes; the result of `processTask` and the response of the HTTP handler do not
depend on how the notification goes (whether `node-fetch` loads, what each POST
yields), and a Provisioning Result returned by `processTask` is reported by the handler
with status 200 and `success: true`. -/
theorem sendToEvaluationUrl_never_fails (cfg : Config) (w : World) (t : TaskData)
    (url : JSString) (data : ResponseData) (load : Except JSError Unit)
    (fetch : Nat → JSString → ResponseData → FetchOutcome) :
    (sendToEvaluationUrl w url data).result = .ok () ∧
    (processTask cfg { w with importNodeFetch := load, fetch := fetch } t).result =
      (processTask cfg w t).result ∧
    handlePost cfg { w with importNodeFetch := load, fetch := fetch } t = handlePost cfg w t ∧
    ∀ r, (processTask cfg w t).result = .ok r →
      handlePost cfg { w with importNodeFetch := load, fetch := fetch } t =
        (200, { success := true, message := some (js "Task processed successfully"),
                data := some r, error := none }) := by
  have hres := processTask_result_notification_irrelevant cfg w t load fetch
  refine ⟨sendToEvaluationUrl_result w url data, hres, ?_, ?_⟩
  · unfold handlePost
    rw [hres]
  · intro r hr
    unfold handlePost
    rw [hres, hr]

theorem sendToEvaluationUrl_never_fails_witness :
    (processTask sampleConfig unreachableWorld sampleTask).result =
      (processTask sampleConfig sampleWorld sampleTask).result ∧
    handlePost sampleConfig unreachableWorld sampleTask =
      (200, { success := true, message := some (js "Task processed successfully"),
              data := some (responseData sampleConfig sampleTask
                (repoName sampleTask.task sampleWorld.dateNow) (js "9fceb02")),
              error := none }) :=
  have h := sendToEvaluationUrl_never_fails sampleConfig sampleWorld sampleTask
    sampleTask.evaluation_url
    (responseData sampleConfig sampleTask (repoName sampleTask.task sampleWorld.dateNow)
      (js "9fceb02"))
    (.ok ()) (fun _ _ _ => .threw ⟨js "connect ECONNREFUSED"⟩)
  ⟨h.2.1, h.2.2.2 _ rfl⟩


/-! ## Call sequence and result -/

theorem generateApp_paths (rand : JSString) (year : Nat) (brief : JSString)
    (attachments : Option (List Attachment)) (checks : Option (List JSString)) (files : FileSet)
    (h : generateApp rand year brief attachments checks = .ok files) :
    files.map Prod.fst = [js "index.html", js "README.md", js "LICENSE"] := by
  unfold generateApp at h
  cases hd : decodeAttachments (attachments.getD []) with
  | error e => rw [hd] at h; simp at h
  | ok attachmentFiles =>
    rw [hd] at h
    simp only [Except.ok.injEq] at h
    rw [← h]
    rfl

/-- C6 in the repaired program (the escaped templates of lines 508, 554, 560 read
as template literals; not the file as shipped): for an authorized request whose content generation gives the file set `files`
and whose repository creation succeeds.  The file set lists `index.html`, `README.md`,
`LICENSE` in this order.  If every write and the commit lookup succeed, the calls are
exactly: the creation of a public repository named by the project identifier and
described by the brief; one write per entry of the file set, in its order, with the
entry's path and its content (base64 of its UTF-8 bytes); the hosting-enable on branch
`main` at path `/`; the commit lookup; the calls of the notification, which are a
single POST of the result when that POST is answered ok.  If a write fails, the calls
are the creation and the writes of the entries up to and including the failing one. -/
theorem processTask_call_sequence (cfg : Config) (w : World) (t : TaskData) (files : FileSet)
    (hauth : t.secret = cfg.STUDENT_SECRET)
    (hgen : generateApp w.mathRandomBase36 w.fullYear t.brief t.attachments t.checks = .ok files)
    (hcreate : w.createForAuthenticatedUser
      (createRepoParams (repoName t.task w.dateNow) t.brief) = .ok ()) :
    files.map Prod.fst = [js "index.html", js "README.md", js "LICENSE"] ∧
    (∀ commit commits,
      (∀ entry ∈ files, w.createOrUpdateFileContents
        (fileContentsParams cfg (repoName t.task w.dateNow) entry) = .ok ()) →
      w.listCommits (listCommitsParams cfg (repoName t.task w.dateNow)) =
        .ok (commit :: commits) →
      (processTask cfg w t).calls =
        [Call.createForAuthenticatedUser
          { name := repoName t.task w.dateNow, description := t.brief, isPrivate := false,
            has_issues := true, has_projects := true, has_wiki := true, auto_init := false }] ++
        files.map (fun entry => Call.createOrUpdateFileContents
          { owner := cfg.GITHUB_USERNAME, repo := repoName t.task w.dateNow, path := entry.1,
            message := js "Add " ++ entry.1,
            content := bufferToBase64 (bufferFromString entry.2) }) ++
        [Call.createPagesSite
          { owner := cfg.GITHUB_USERNAME, repo := repoName t.task w.dateNow,
            branch := js "main", path := js "/" },
         Call.listCommits { owner := cfg.GITHUB_USERNAME, repo := repoName t.task w.dateNow }] ++
        (sendToEvaluationUrl w t.evaluation_url
          (responseData cfg t (repoName t.task w.dateNow) commit.sha)).calls ∧
      (w.importNodeFetch = .ok () →
        (w.fetch 0 t.evaluation_url
          (responseData cfg t (repoName t.task w.dateNow) commit.sha)).succeeded = true →
        (sendToEvaluationUrl w t.evaluation_url
            (responseData cfg t (repoName t.task w.dateNow) commit.sha)).calls =
          [Call.fetchPost t.evaluation_url (js "application/json")
            (responseData cfg t (repoName t.task w.dateNow) commit.sha)])) ∧
    (∀ pre entry post e, files = pre ++ entry :: post →
      (∀ x ∈ pre, w.createOrUpdateFileContents
        (fileContentsParams cfg (repoName t.task w.dateNow) x) = .ok ()) →
      w.createOrUpdateFileContents
        (fileContentsParams cfg (repoName t.task w.dateNow) entry) = .error e →
      (processTask cfg w t).result = .error e ∧
      (processTask cfg w t).calls =
        Call.createForAuthenticatedUser
            (createRepoParams (repoName t.task w.dateNow) t.brief) ::
          (pre ++ [entry]).map (fun x => Call.createOrUpdateFileContents
            (fileContentsParams cfg (repoName t.task w.dateNow) x))) := by
  refine ⟨generateApp_paths _ _ _ _ _ files hgen, ?_, ?_⟩
  · intro commit commits hwrite hlist
    have hpush := (pushCodeToRepo_ok_iff cfg w _ files t.brief).2 hwrite
    rw [processTask_success cfg w t files commit commits hauth hgen hcreate hpush hlist]
    constructor
    · simp only [provisioningCalls, pushCodeToRepo_all_ok cfg w _ files t.brief hwrite]
      simp [createRepoParams, fileContentsParams, pagesSiteParams, listCommitsParams]
    · intro himport hok
      unfold sendToEvaluationUrl
      rw [himport]
      simp only []
      rw [sendLoop_success_after w _ _ 0 5 1000 0 (by omega) (fun i hi => by omega)
        (by simpa using hok)]
      rfl
  · intro pre entry post e hfiles hpre hfail
    subst hfiles
    have hrun := pushCodeToRepo_first_failure cfg w (repoName t.task w.dateNow) pre entry post
      t.brief e hpre hfail
    have hpush : (pushCodeToRepo cfg w (repoName t.task w.dateNow) (pre ++ entry :: post)
        t.brief).result = .error e := by rw [hrun]
    rw [processTask_push_error cfg w t _ e hauth hgen hcreate hpush, hrun]
    exact ⟨rfl, rfl⟩

theorem processTask_call_sequence_witness :
    sampleTask.secret = sampleConfig.STUDENT_SECRET ∧
    (processTask sampleConfig sampleWorld sampleTask).calls =
      [Call.createForAuthenticatedUser
        { name := js "My-Task---1700000000000", description := js "Show a sales summary",
          isPrivate := false, has_issues := true, has_projects := true, has_wiki := true,
          auto_init := false }] ++
      sampleFiles.map (fun entry => Call.createOrUpdateFileContents
        { owner := js "octo", repo := js "My-Task---1700000000000", path := entry.1,
          message := js "Add " ++ entry.1,
          content := bufferToBase64 (bufferFromString entry.2) }) ++
      [Call.createPagesSite
        { owner := js "octo", repo := js "My-Task---1700000000000", branch := js "main",
          path := js "/" },
       Call.listCommits { owner := js "octo", repo := js "My-Task---1700000000000" }] ++
      [Call.fetchPost (js "https://example.com/notify") (js "application/json")
        (responseData sampleConfig sampleTask (js "My-Task---1700000000000") (js "9fceb02"))] ∧
    (processTask sampleConfig writeFailsWorld sampleTask).calls =
      [Call.createForAuthenticatedUser
        (createRepoParams (js "My-Task---1700000000000") (js "Show a sales summary")),
       Call.createOrUpdateFileContents
        (fileContentsParams sampleConfig (js "My-Task---1700000000000")
          (js "index.html", generateSalesSummary sampleAttachmentFiles)),
       Call.createOrUpdateFileContents
        (fileContentsParams sampleConfig (js "My-Task---1700000000000")
          (js "README.md", generateReadme sampleTask.brief))] := by
  have h1 := (processTask_call_sequence sampleConfig sampleWorld sampleTask sampleFiles
    (by decide) (sampleTask_generateApp sampleWorld rfl) rfl).2.1
    { sha := js "9fceb02" } [{ sha := js "1a2b3c4" }] (fun _ _ => rfl) rfl
  have h2 := (processTask_call_sequence sampleConfig writeFailsWorld sampleTask sampleFiles
    (by decide) (sampleTask_generateApp writeFailsWorld rfl) rfl).2.2
    [(js "index.html", generateSalesSummary sampleAttachmentFiles)]
    (js "README.md", generateReadme sampleTask.brief)
    [(js "LICENSE", getMITLicense 2023)] sampleError rfl
    (fun x hx => by rw [List.mem_singleton.1 hx]; rfl) rfl
  refine ⟨by decide, ?_, ?_⟩
  · rw [h1.1, h1.2 rfl rfl]
    exact congrArg _ rfl
  · rw [h2.2]
    rfl

theorem sendLoop_calls_repository (w : World) (url : JSString) (data : ResponseData) :
    ∀ retries delay attempt, ∀ c ∈ (sendLoop w url data retries delay attempt).calls,
      c.repository = none := by
  intro retries
  induction retries with
  | zero => intro delay attempt c hc; simp [sendLoop] at hc
  | succ retries ih =>
    intro delay attempt c hc
    rw [sendLoop] at hc
    cases herr : attemptError (w.fetch attempt url data) with
    | none =>
      rw [herr] at hc
      simp only [List.mem_singleton] at hc
      subst hc; rfl
    | some error =>
      rw [herr] at hc
      by_cases h0 : retries = 0
      · simp only [h0, if_true, List.mem_singleton] at hc
        subst hc; rfl
      · simp only [h0, if_false, List.mem_cons] at hc
        rcases hc with rfl | rfl | hc
        · rfl
        · rfl
        · exact ih _ _ c hc

theorem sendToEvaluationUrl_calls_repository (w : World) (url : JSString) (data : ResponseData) :
    ∀ c ∈ (sendToEvaluationUrl w url data).calls, c.repository = none := by
  intro c hc
  unfold sendToEvaluationUrl at hc
  cases himport : w.importNodeFetch with
  | error e => rw [himport] at hc; simp at hc
  | ok u =>
    rw [himport] at hc
    exact sendLoop_calls_repository w url data 5 1000 0 c hc

/-- C7 in the repaired program (the escaped templates of lines 508, 554, 560 read
as template literals; not the file as shipped): a Provisioning Result returned by `processTask` carries the request's email,
task, round and nonce unchanged, `repo_url = https://github.com/<owner>/<project>`,
`pages_url = https://<owner>.github.io/<project>/` and the hash of the first element
of the commit list the provider returned, where `<project>` is the repository name
of the creation call and of every other provider call of the run. -/
theorem processTask_result_fields (cfg : Config) (w : World) (t : TaskData) (r : ResponseData)
    (h : (processTask cfg w t).result = .ok r) :
    r.email = t.email ∧ r.task = t.task ∧ r.round = t.round ∧ r.nonce = t.nonce ∧
    r.repo_url = js "https://github.com/" ++ cfg.GITHUB_USERNAME ++ js "/" ++
      repoName t.task w.dateNow ∧
    r.pages_url = js "https://" ++ cfg.GITHUB_USERNAME ++ js ".github.io/" ++
      repoName t.task w.dateNow ++ js "/" ∧
    (∃ commit commits,
      w.listCommits { owner := cfg.GITHUB_USERNAME, repo := repoName t.task w.dateNow } =
        .ok (commit :: commits) ∧ r.commit_sha = commit.sha) ∧
    Call.createForAuthenticatedUser (createRepoParams (repoName t.task w.dateNow) t.brief) ∈
      (processTask cfg w t).calls ∧
    (∃ files,
      generateApp w.mathRandomBase36 w.fullYear t.brief t.attachments t.checks = .ok files ∧
      ∀ entry ∈ files, Call.createOrUpdateFileContents
        (fileContentsParams cfg (repoName t.task w.dateNow) entry) ∈
          (processTask cfg w t).calls) ∧
    ∀ c ∈ (processTask cfg w t).calls, ∀ n, c.repository = some n →
      n = repoName t.task w.dateNow := by
  by_cases hauth : t.secret = cfg.STUDENT_SECRET
  swap
  · rw [processTask_unauthorized cfg w t hauth] at h
    simp at h
  cases hgen : generateApp w.mathRandomBase36 w.fullYear t.brief t.attachments t.checks with
  | error eg =>
    rw [processTask_generate_error cfg w t eg hauth hgen] at h
    simp at h
  | ok files =>
    cases hcreate : w.createForAuthenticatedUser
        (createRepoParams (repoName t.task w.dateNow) t.brief) with
    | error ec =>
      rw [processTask_create_error cfg w t files ec hauth hgen hcreate] at h
      simp at h
    | ok u =>
      cases hpush : (pushCodeToRepo cfg w (repoName t.task w.dateNow) files t.brief).result with
      | error ep =>
        rw [processTask_push_error cfg w t files ep hauth hgen hcreate hpush] at h
        simp at h
      | ok u1 =>
        cases hlist : w.listCommits (listCommitsParams cfg (repoName t.task w.dateNow)) with
        | error el =>
          rw [processTask_lookup_error cfg w t files el hauth hgen hcreate hpush hlist] at h
          simp at h
        | ok cs =>
          cases cs with
          | nil =>
            rw [processTask_lookup_empty cfg w t files hauth hgen hcreate hpush hlist] at h
            simp at h
          | cons commit commits =>
            have hrun := processTask_success cfg w t files commit commits hauth hgen hcreate
              hpush hlist
            rw [hrun] at h ⊢
            simp only [Except.ok.injEq] at h
            subst h
            refine ⟨rfl, rfl, rfl, rfl, rfl, rfl, ⟨commit, commits, hlist, rfl⟩, ?_,
              ⟨files, rfl, ?_⟩, ?_⟩
            · simp [provisioningCalls]
            · intro entry hentry
              have hall := (pushCodeToRepo_ok_iff cfg w _ files t.brief).1 hpush
              rw [provisioningCalls, pushCodeToRepo_all_ok cfg w _ files t.brief hall]
              exact List.mem_append_left _ (List.mem_cons_of_mem _ (List.mem_append_left _
                (List.mem_map.2 ⟨entry, hentry, rfl⟩)))
            · intro c hc n hn
              rcases List.mem_append.1 hc with hc | hc
              · exact repository_provisioningCalls cfg w t files c hc n hn
              · rw [sendToEvaluationUrl_calls_repository w _ _ c hc] at hn
                simp at hn

theorem processTask_result_fields_witness :
    (processTask sampleConfig sampleWorld sampleTask).result =
      .ok { email := js "student@example.com", task := js "My Task!!", round := 1,
            nonce := js "nonce-1",
            repo_url := js "https://github.com/octo/My-Task---1700000000000",
            commit_sha := js "9fceb02",
            pages_url := js "https://octo.github.io/My-Task---1700000000000/" } ∧
    Call.createForAuthenticatedUser
        (createRepoParams (repoName sampleTask.task sampleWorld.dateNow) sampleTask.brief) ∈
      (processTask sampleConfig sampleWorld sampleTask).calls ∧
    ∀ c ∈ (processTask sampleConfig sampleWorld sampleTask).calls, ∀ n,
      c.repository = some n → n = repoName sampleTask.task sampleWorld.dateNow :=
  have hrun : (processTask sampleConfig sampleWorld sampleTask).result =
      .ok { email := js "student@example.com", task := js "My Task!!", round := 1,
            nonce := js "nonce-1",
            repo_url := js "https://github.com/octo/My-Task---1700000000000",
            commit_sha := js "9fceb02",
            pages_url := js "https://octo.github.io/My-Task---1700000000000/" } := by
    rfl
  have h := processTask_result_fields sampleConfig sampleWorld sampleTask _ hrun
  ⟨hrun, h.2.2.2.2.2.2.2.1, h.2.2.2.2.2.2.2.2.2⟩


/-! ## Buffers: round trips -/

theorem unbase64_base64Char :
    ∀ v, v < 64 → unbase64 (base64Char v) = some v ∧ base64Char v ≠ 61 ∧ base64Char v ≠ 44 := by
  decide

theorem base64Values_cons_char (v : Nat) (h : v < 64) (rest : JSString) :
    base64Values (base64Char v :: rest) = v :: base64Values rest := by
  obtain ⟨h1, h2, _⟩ := unbase64_base64Char v h
  rw [base64Values, if_neg h2, h1]

theorem bufferFromBase64_bufferToBase64 (bytes : List Nat) (h : ∀ b ∈ bytes, b < 256) :
    bufferFromBase64 (bufferToBase64 bytes) = bytes := by
  unfold bufferFromBase64
  induction bytes using bufferToBase64.induct with
  | case1 => rfl
  | case2 a =>
    have ha := h a (by simp)
    rw [bufferToBase64, base64Values_cons_char _ (by omega), base64Values_cons_char _ (by omega)]
    simp only [base64Values, if_true, base64Bytes]
    congr 1
    omega
  | case3 a b =>
    have ha := h a (by simp)
    have hb := h b (by simp)
    rw [bufferToBase64, base64Values_cons_char _ (by omega), base64Values_cons_char _ (by omega),
      base64Values_cons_char _ (by omega)]
    simp only [base64Values, if_true, base64Bytes]
    congr 1
    · omega
    · congr 1
      omega
  | case4 a b c rest ih =>
    have ha := h a (by simp)
    have hb := h b (by simp)
    have hc := h c (by simp)
    have hrest := ih (fun x hx => h x (by simp [hx]))
    rw [bufferToBase64]
    simp only [List.cons_append, List.nil_append]
    rw [base64Values_cons_char _ (by omega), base64Values_cons_char _ (by omega),
      base64Values_cons_char _ (by omega), base64Values_cons_char _ (by omega), base64Bytes, hrest]
    simp only [List.cons_append, List.nil_append]
    congr 1
    · omega
    · congr 1
      · omega
      · congr 1
        omega

theorem bufferToBase64_no_comma (bytes : List Nat) : ∀ u ∈ bufferToBase64 bytes, u ≠ 44 := by
  have hc : ∀ v, base64Char v ≠ 44 := by
    intro v
    unfold base64Char
    split_ifs <;> omega
  induction bytes using bufferToBase64.induct with
  | case1 => intro u hu; simp [bufferToBase64] at hu
  | case2 a =>
    intro u hu
    simp only [bufferToBase64, List.mem_cons, List.mem_singleton, List.not_mem_nil, or_false] at hu
    rcases hu with rfl | rfl | rfl | rfl
    · exact hc _
    · exact hc _
    · decide
    · decide
  | case3 a b =>
    intro u hu
    simp only [bufferToBase64, List.mem_cons, List.mem_singleton, List.not_mem_nil, or_false] at hu
    rcases hu with rfl | rfl | rfl | rfl
    · exact hc _
    · exact hc _
    · exact hc _
    · decide
  | case4 a b c rest ih =>
    intro u hu
    simp only [bufferToBase64, List.cons_append, List.nil_append, List.mem_cons] at hu
    rcases hu with rfl | rfl | rfl | rfl | hu
    · exact hc _
    · exact hc _
    · exact hc _
    · exact hc _
    · exact ih u hu


theorem utf8Bytes_lt (cp : Nat) : ∀ b ∈ utf8Bytes cp, b < 256 := by
  intro b hb
  unfold utf8Bytes at hb
  split_ifs at hb <;>
    simp only [List.mem_cons, List.mem_singleton, List.not_mem_nil, or_false] at hb <;>
    omega

theorem bufferFromString_lt : ∀ (s : JSString), ∀ b ∈ bufferFromString s, b < 256 := by
  intro s
  induction s using bufferFromString.induct with
  | case1 => intro b hb; simp [bufferFromString] at hb
  | case2 u h =>
    intro b hb
    rw [bufferFromString, if_pos h] at hb
    simp only [List.mem_cons, List.mem_singleton, List.not_mem_nil, or_false] at hb
    omega
  | case3 u h v rest2 hv ih =>
    intro b hb
    rw [bufferFromString, if_pos h] at hb
    simp only [if_pos hv, List.mem_append] at hb
    rcases hb with hb | hb
    · exact utf8Bytes_lt _ b hb
    · exact ih b hb
  | case4 u h v rest2 hv ih =>
    intro b hb
    rw [bufferFromString, if_pos h] at hb
    simp only [if_neg hv, List.mem_append, List.mem_cons, List.mem_singleton, List.not_mem_nil,
      or_false] at hb
    rcases hb with hb | hb
    · omega
    · exact ih b hb
  | case5 u rest h hl ih =>
    intro b hb
    rw [bufferFromString.eq_def] at hb
    simp only [if_neg h, if_pos hl] at hb
    simp only [List.mem_append, List.mem_cons, List.mem_singleton, List.not_mem_nil,
      or_false] at hb
    rcases hb with hb | hb
    · omega
    · exact ih b hb
  | case6 u rest h hl ih =>
    intro b hb
    rw [bufferFromString.eq_def] at hb
    simp only [if_neg h, if_neg hl] at hb
    rcases List.mem_append.1 hb with hb | hb
    · exact utf8Bytes_lt _ b hb
    · exact ih b hb


theorem utf8DecodeFrom_start (b : Nat) (rest : List Nat) (cp lower upper : Nat) :
    utf8DecodeFrom (b :: rest) cp 0 lower upper =
      match utf8Lead b with
      | .ascii c => c :: utf8DecodeFrom rest 0 0 0x80 0xBF
      | .lead c n lo hi => utf8DecodeFrom rest c n lo hi
      | .invalid => 0xFFFD :: utf8DecodeFrom rest 0 0 0x80 0xBF := by
  rw [utf8DecodeFrom]
  simp

theorem utf8DecodeFrom_last (b : Nat) (rest : List Nat) (cp lower upper : Nat)
    (h1 : lower ≤ b) (h2 : b ≤ upper) :
    utf8DecodeFrom (b :: rest) cp 1 lower upper =
      codePointUnits (cp * 0x40 + b % 0x40) ++ utf8DecodeFrom rest 0 0 0x80 0xBF := by
  rw [utf8DecodeFrom]
  have h : ¬((1 : Nat) = 0 ∨ b < lower ∨ upper < b) := by omega
  rw [if_neg h]
  simp

theorem utf8DecodeFrom_middle (b : Nat) (rest : List Nat) (cp needed lower upper : Nat)
    (hn : 2 ≤ needed) (h1 : lower ≤ b) (h2 : b ≤ upper) :
    utf8DecodeFrom (b :: rest) cp needed lower upper =
      utf8DecodeFrom rest (cp * 0x40 + b % 0x40) (needed - 1) 0x80 0xBF := by
  rw [utf8DecodeFrom]
  have h : ¬(needed = 0 ∨ b < lower ∨ upper < b) := by omega
  have hne : ¬ needed = 1 := by omega
  rw [if_neg h, if_neg hne]

theorem utf8DecodeFrom_utf8Bytes (cp : Nat)
    (hvalid : cp < 0xD800 ∨ (0xDFFF < cp ∧ cp < 0x110000)) (tail : List Nat) :
    utf8DecodeFrom (utf8Bytes cp ++ tail) 0 0 0x80 0xBF =
      codePointUnits cp ++ utf8DecodeFrom tail 0 0 0x80 0xBF := by
  unfold utf8Bytes
  by_cases h1 : cp < 0x80
  · rw [if_pos h1, List.singleton_append, utf8DecodeFrom_start]
    have hl : utf8Lead cp = .ascii cp := by
      unfold utf8Lead
      rw [if_pos (by omega)]
    have hu : codePointUnits cp = [cp] := by
      unfold codePointUnits
      rw [if_pos (by omega)]
    rw [hl, hu]
    rfl
  · rw [if_neg h1]
    by_cases h2 : cp < 0x800
    · rw [if_pos h2]
      simp only [List.cons_append, List.nil_append]
      rw [utf8DecodeFrom_start]
      have hl : utf8Lead (0xC0 + cp / 0x40) = .lead ((0xC0 + cp / 0x40) % 0x20) 1 0x80 0xBF := by
        unfold utf8Lead
        rw [if_neg (by omega), if_pos (by omega)]
      rw [hl]
      simp only []
      rw [utf8DecodeFrom_last _ _ _ _ _ (by omega) (by omega)]
      congr 2
      omega
    · rw [if_neg h2]
      by_cases h3 : cp < 0x10000
      · rw [if_pos h3]
        simp only [List.cons_append, List.nil_append]
        rw [utf8DecodeFrom_start]
        have hl : utf8Lead (0xE0 + cp / 0x1000) =
            .lead ((0xE0 + cp / 0x1000) % 0x10) 2
              (if 0xE0 + cp / 0x1000 = 0xE0 then 0xA0 else 0x80)
              (if 0xE0 + cp / 0x1000 = 0xED then 0x9F else 0xBF) := by
          unfold utf8Lead
          rw [if_neg (by omega), if_neg (by omega), if_pos (by omega)]
        rw [hl]
        simp only []
        rw [utf8DecodeFrom_middle _ _ _ _ _ _ (by omega) (by split_ifs <;> omega)
          (by split_ifs <;> omega)]
        simp only [Nat.add_one_sub_one]
        rw [utf8DecodeFrom_last _ _ _ _ _ (by omega) (by omega)]
        congr 2
        omega
      · rw [if_neg h3]
        simp only [List.cons_append, List.nil_append]
        rw [utf8DecodeFrom_start]
        have hl : utf8Lead (0xF0 + cp / 0x40000 % 8) =
            .lead ((0xF0 + cp / 0x40000 % 8) % 8) 3
              (if 0xF0 + cp / 0x40000 % 8 = 0xF0 then 0x90 else 0x80)
              (if 0xF0 + cp / 0x40000 % 8 = 0xF4 then 0x8F else 0xBF) := by
          unfold utf8Lead
          rw [if_neg (by omega), if_neg (by omega), if_neg (by omega), if_pos (by omega)]
        rw [hl]
        simp only []
        rw [utf8DecodeFrom_middle _ _ _ _ _ _ (by omega) (by split_ifs <;> omega)
          (by split_ifs <;> omega)]
        simp only [Nat.add_one_sub_one]
        rw [utf8DecodeFrom_middle _ _ _ _ _ _ (by omega) (by omega) (by omega)]
        simp only [Nat.add_one_sub_one]
        rw [utf8DecodeFrom_last _ _ _ _ _ (by omega) (by omega)]
        congr 2
        omega

theorem char_toNat_valid (c : Char) :
    c.toNat < 0xD800 ∨ (0xDFFF < c.toNat ∧ c.toNat < 0x110000) := c.valid

theorem codePointUnits_char (c : Char) : codePointUnits c.toNat = utf16Units c := rfl

theorem bufferFromString_utf16Units (c : Char) (rest : JSString) :
    bufferFromString (utf16Units c ++ rest) = utf8Bytes c.toNat ++ bufferFromString rest := by
  have hv := char_toNat_valid c
  unfold utf16Units
  by_cases h : c.toNat < 0x10000
  · rw [if_pos h, List.singleton_append, bufferFromString.eq_def]
    simp only [if_neg (show ¬(0xD800 ≤ c.toNat ∧ c.toNat < 0xDC00) by omega),
      if_neg (show ¬(0xDC00 ≤ c.toNat ∧ c.toNat < 0xE000) by omega)]
  · rw [if_neg h]
    simp only [List.cons_append, List.nil_append]
    have hhi : 0xD800 ≤ 0xD800 + (c.toNat - 0x10000) / 0x400 ∧
        0xD800 + (c.toNat - 0x10000) / 0x400 < 0xDC00 := by omega
    have hlo : 0xDC00 ≤ 0xDC00 + (c.toNat - 0x10000) % 0x400 ∧
        0xDC00 + (c.toNat - 0x10000) % 0x400 < 0xE000 := by omega
    have hcp : 0x10000 + (0xD800 + (c.toNat - 0x10000) / 0x400 - 0xD800) * 0x400 +
        (0xDC00 + (c.toNat - 0x10000) % 0x400 - 0xDC00) = c.toNat := by omega
    rw [bufferFromString.eq_def]
    simp only [if_pos hhi, if_pos hlo, hcp]

theorem bufferToString_bufferFromString_js (s : String) :
    bufferToString (bufferFromString (js s)) = js s := by
  unfold bufferToString js
  induction s.toList with
  | nil => rfl
  | cons c l ih =>
    rw [List.flatMap_cons, bufferFromString_utf16Units,
      utf8DecodeFrom_utf8Bytes _ (char_toNat_valid c), ih, codePointUnits_char]


/-! ## Content generation: attachments -/

theorem split_of_not_mem (sep : Nat) (s : JSString) (h : sep ∉ s) : split sep s = [s] := by
  induction s with
  | nil => rfl
  | cons u rest ih =>
    have hu : ¬ u = sep := fun hu => h (hu ▸ List.mem_cons_self _ _)
    have hrest : sep ∉ rest := fun hr => h (List.mem_cons_of_mem _ hr)
    rw [split, if_neg hu, ih hrest]

theorem split_append_sep (sep : Nat) (header payload : JSString) (h : sep ∉ header) :
    split sep (header ++ sep :: payload) = header :: split sep payload := by
  induction header with
  | nil => rw [List.nil_append, split, if_pos rfl]
  | cons u rest ih =>
    have hu : ¬ u = sep := fun hu => h (hu ▸ List.mem_cons_self _ _)
    have hrest : sep ∉ rest := fun hr => h (List.mem_cons_of_mem _ hr)
    rw [List.cons_append, split, if_neg hu, ih hrest]

theorem split_of_mem (sep : Nat) (s : JSString) (h : sep ∈ s) :
    ∃ header data rest, split sep s = header :: data :: rest := by
  obtain ⟨l1, l2, rfl, hl1⟩ := List.eq_append_cons_of_mem h
  rw [split_append_sep sep l1 l2 hl1]
  cases l2 with
  | nil => exact ⟨l1, [], [], rfl⟩
  | cons v l3 =>
    rw [split]
    by_cases hv : v = sep
    · rw [if_pos hv]; exact ⟨l1, [], _, rfl⟩
    · rw [if_neg hv]
      cases split sep l3 with
      | nil => exact ⟨l1, [v], [], rfl⟩
      | cons p ps => exact ⟨l1, v :: p, ps, rfl⟩

theorem decodeAttachment_name (att : Attachment) (file : AttachmentFile)
    (h : decodeAttachment att = .ok file) : file.name = att.name := by
  unfold decodeAttachment at h
  split at h
  · simp only [Except.ok.injEq] at h; rw [← h]
  · split at h
    · split at h
      · simp only [Except.ok.injEq] at h; rw [← h]
      · simp at h
    · simp only [Except.ok.injEq] at h; rw [← h]

theorem decodeAttachment_ok_of_comma (att : Attachment)
    (h : ∀ url, att.url = some url → startsWith url (js "data:") = true → 44 ∈ url) :
    ∃ file, decodeAttachment att = .ok file := by
  unfold decodeAttachment
  split
  · exact ⟨_, rfl⟩
  · next url hurl =>
    split
    · next hdata =>
      obtain ⟨header, data, rest, hsplit⟩ := split_of_mem 44 url (h url hurl hdata.2)
      rw [hsplit]
      exact ⟨_, rfl⟩
    · exact ⟨_, rfl⟩

theorem decodeAttachment_error_of_no_comma (att : Attachment) (url : JSString)
    (hurl : att.url = some url) (hdata : startsWith url (js "data:") = true) (hcomma : 44 ∉ url) :
    decodeAttachment att = .error bufferFromUndefinedError := by
  have hne : url ≠ [] := by
    intro h0
    rw [h0] at hdata
    exact absurd hdata (by decide)
  unfold decodeAttachment
  rw [hurl]
  simp only []
  rw [if_pos ⟨hne, hdata⟩, split_of_not_mem 44 url hcomma]

theorem decodeAttachment_inline (name header : JSString) (s : String)
    (hheader : startsWith header (js "data:") = true) (hcomma : 44 ∉ header) :
    decodeAttachment
        { name := name, url := some (header ++ 44 :: bufferToBase64 (bufferFromString (js s))) } =
      .ok { name := name, content := js s,
            mimeType := (matchDataMime header).getD (js "text/plain") } := by
  have hstart : startsWith (header ++ 44 :: bufferToBase64 (bufferFromString (js s)))
      (js "data:") = true := by
    unfold startsWith at hheader ⊢
    rw [List.isPrefixOf_iff_prefix] at hheader ⊢
    exact hheader.trans (List.prefix_append _ _)
  have hne : header ++ 44 :: bufferToBase64 (bufferFromString (js s)) ≠ [] := by simp
  unfold decodeAttachment
  simp only []
  rw [if_pos ⟨hne, hstart⟩, split_append_sep 44 header _ hcomma,
    split_of_not_mem 44 _ (fun hmem => bufferToBase64_no_comma _ 44 hmem rfl)]
  simp only []
  rw [bufferFromBase64_bufferToBase64 _ (bufferFromString_lt _),
    bufferToString_bufferFromString_js]

theorem decodeAttachments_ok (atts : List Attachment)
    (h : ∀ a ∈ atts, ∃ file, decodeAttachment a = .ok file) :
    ∃ files, decodeAttachments atts = .ok files ∧
      List.Forall₂ (fun a file => decodeAttachment a = .ok file) atts files := by
  induction atts with
  | nil => exact ⟨[], rfl, List.Forall₂.nil⟩
  | cons a rest ih =>
    obtain ⟨file, hfile⟩ := h a (List.mem_cons_self _ _)
    obtain ⟨files, hfiles, hall⟩ := ih (fun x hx => h x (List.mem_cons_of_mem _ hx))
    refine ⟨file :: files, ?_, List.Forall₂.cons hfile hall⟩
    rw [decodeAttachments, hfile]
    simp only []
    rw [hfiles]

theorem decodeAttachments_error (atts : List Attachment) (e : JSError)
    (h : decodeAttachments atts = .error e) : ∃ a ∈ atts, decodeAttachment a = .error e := by
  induction atts with
  | nil => simp [decodeAttachments] at h
  | cons a rest ih =>
    rw [decodeAttachments] at h
    cases ha : decodeAttachment a with
    | error e1 =>
      rw [ha] at h
      simp only [Except.error.injEq] at h
      exact ⟨a, List.mem_cons_self _ _, h ▸ ha⟩
    | ok file =>
      rw [ha] at h
      simp only [] at h
      cases hr : decodeAttachments rest with
      | error e2 =>
        rw [hr] at h
        simp only [Except.error.injEq] at h
        obtain ⟨x, hx, hxe⟩ := ih (h ▸ hr)
        exact ⟨x, List.mem_cons_of_mem _ hx, hxe⟩
      | ok files => rw [hr] at h; simp at h

theorem lastContentWithSuffix_append (ext : JSString) (before after : List AttachmentFile)
    (file : AttachmentFile) (hfile : endsWith file.name ext = true)
    (hafter : ∀ f ∈ after, endsWith f.name ext = false) :
    lastContentWithSuffix ext (before ++ file :: after) = file.content := by
  unfold lastContentWithSuffix
  rw [List.foldl_append, List.foldl_cons, if_pos hfile]
  generalize file.content = v
  induction after generalizing v with
  | nil => rfl
  | cons f rest ih =>
    have hf := hafter f (List.mem_cons_self _ _)
    rw [List.foldl_cons, hf]
    exact ih (fun x hx => hafter x (List.mem_cons_of_mem _ hx)) v


theorem decodeAttachments_append (l1 l2 : List Attachment) (f1 f2 : List AttachmentFile)
    (h1 : decodeAttachments l1 = .ok f1) (h2 : decodeAttachments l2 = .ok f2) :
    decodeAttachments (l1 ++ l2) = .ok (f1 ++ f2) := by
  induction l1 generalizing f1 with
  | nil =>
    simp only [decodeAttachments, Except.ok.injEq] at h1
    rw [← h1]
    exact h2
  | cons a rest ih =>
    rw [decodeAttachments] at h1
    cases ha : decodeAttachment a with
    | error e => rw [ha] at h1; simp at h1
    | ok file =>
      rw [ha] at h1
      simp only [] at h1
      cases hr : decodeAttachments rest with
      | error e => rw [hr] at h1; simp at h1
      | ok files =>
        rw [hr] at h1
        simp only [Except.ok.injEq] at h1
        rw [List.cons_append, decodeAttachments, ha]
        simp only []
        rw [ih files hr, ← h1]
        rfl

theorem decodeAttachments_names (atts : List Attachment) (files : List AttachmentFile)
    (h : List.Forall₂ (fun a file => decodeAttachment a = .ok file) atts files) :
    ∀ f ∈ files, ∃ a ∈ atts, f.name = a.name := by
  induction h with
  | nil => intro f hf; simp at hf
  | cons hhead _ ih =>
    intro f hf
    rcases List.mem_cons.1 hf with rfl | hf
    · exact ⟨_, List.mem_cons_self _ _, decodeAttachment_name _ _ hhead⟩
    · obtain ⟨a, ha, hname⟩ := ih f hf
      exact ⟨a, List.mem_cons_of_mem _ ha, hname⟩

/-- The sales page embeds the decoded CSV in place: whenever the lower-cased brief
contains `sales` and not `captcha`, the attachment list has one attachment named
`*.csv` whose URL is a base64 data URI of the text `s`, no other attachment is named
`*.csv`, and every `data:` URL among the other attachments has a comma, `generateApp`
returns a file set whose `index.html` is the sales template with `s` inserted
verbatim between its two literal parts. -/
theorem generateApp_embeds_csv (rand : JSString) (year : Nat) (brief name header : JSString)
    (s : String) (before after : List Attachment) (checks : Option (List JSString))
    (hsales : includes (toLowerCase brief) (js "sales") = true)
    (hcaptcha : includes (toLowerCase brief) (js "captcha") = false)
    (hname : endsWith name (js ".csv") = true)
    (hheader : startsWith header (js "data:") = true) (hcomma : 44 ∉ header)
    (hothers : ∀ a ∈ before ++ after, endsWith a.name (js ".csv") = false)
    (hdecodable : ∀ a ∈ before ++ after, ∀ url, a.url = some url →
      startsWith url (js "data:") = true → 44 ∈ url) :
    generateApp rand year brief
        (some (before ++
          { name := name, url := some (header ++ 44 :: bufferToBase64 (bufferFromString (js s))) } ::
          after)) checks =
      .ok [(js "index.html", js generateSalesSummaryText0 ++ js s ++ js generateSalesSummaryText1),
           (js "README.md", generateReadme brief),
           (js "LICENSE", getMITLicense year)] := by
  obtain ⟨filesBefore, hbefore, _⟩ := decodeAttachments_ok before
    (fun a ha => decodeAttachment_ok_of_comma a
      (hdecodable a (List.mem_append_left _ ha)))
  obtain ⟨filesAfter, hafter, hallAfter⟩ := decodeAttachments_ok after
    (fun a ha => decodeAttachment_ok_of_comma a
      (hdecodable a (List.mem_append_right _ ha)))
  have hcsv : decodeAttachments
      ({ name := name, url := some (header ++ 44 :: bufferToBase64 (bufferFromString (js s))) } ::
        after) =
      .ok ({ name := name, content := js s,
             mimeType := (matchDataMime header).getD (js "text/plain") } :: filesAfter) := by
    rw [decodeAttachments, decodeAttachment_inline name header s hheader hcomma]
    simp only []
    rw [hafter]
  have hall := decodeAttachments_append _ _ _ _ hbefore hcsv
  have hlast : lastContentWithSuffix (js ".csv")
      (filesBefore ++
        ({ name := name, content := js s,
           mimeType := (matchDataMime header).getD (js "text/plain") } : AttachmentFile) ::
        filesAfter) = js s :=
    lastContentWithSuffix_append (js ".csv") filesBefore filesAfter _ hname (by
      intro f hf
      obtain ⟨a, ha, hfa⟩ := decodeAttachments_names after filesAfter hallAfter f hf
      rw [hfa]
      exact hothers a (List.mem_append_right _ ha))
  unfold generateApp
  rw [Option.getD_some, hall]
  simp only []
  unfold generateHTMLFromBrief
  simp only [hcaptcha, hsales, Bool.true_or, if_true, Bool.false_eq_true, if_false]
  unfold generateSalesSummary
  rw [hlast]


theorem decodeAttachments_ok_all (atts : List Attachment) (files : List AttachmentFile)
    (h : decodeAttachments atts = .ok files) :
    ∀ a ∈ atts, ∃ file, decodeAttachment a = .ok file := by
  induction atts generalizing files with
  | nil => intro a ha; simp at ha
  | cons x rest ih =>
    rw [decodeAttachments] at h
    cases hx : decodeAttachment x with
    | error e1 => rw [hx] at h; simp at h
    | ok file =>
      rw [hx] at h
      simp only [] at h
      cases hr : decodeAttachments rest with
      | error e2 => rw [hr] at h; simp at h
      | ok files2 =>
        intro a ha
        rcases List.mem_cons.1 ha with rfl | ha
        · exact ⟨file, hx⟩
        · exact ih files2 hr a ha

theorem generateApp_error_iff (rand : JSString) (year : Nat) (brief : JSString)
    (attachments : Option (List Attachment)) (checks : Option (List JSString)) (e : JSError) :
    generateApp rand year brief attachments checks = .error e ↔
      e = bufferFromUndefinedError ∧
      ∃ a ∈ attachments.getD [], ∃ url, a.url = some url ∧
        startsWith url (js "data:") = true ∧ 44 ∉ url := by
  constructor
  · intro h
    unfold generateApp at h
    cases hd : decodeAttachments (attachments.getD []) with
    | ok files => rw [hd] at h; simp at h
    | error e1 =>
      rw [hd] at h
      simp only [Except.error.injEq] at h
      subst h
      obtain ⟨a, ha, hae⟩ := decodeAttachments_error _ _ hd
      have hex : ∃ url, a.url = some url ∧ startsWith url (js "data:") = true ∧ 44 ∉ url := by
        by_contra hno
        obtain ⟨file, hfile⟩ := decodeAttachment_ok_of_comma a (by
          intro url hurl hdata
          by_contra hc
          exact hno ⟨url, hurl, hdata, hc⟩)
        rw [hfile] at hae
        simp at hae
      obtain ⟨url, hurl, hdata, hc⟩ := hex
      rw [decodeAttachment_error_of_no_comma a url hurl hdata hc] at hae
      simp only [Except.error.injEq] at hae
      exact ⟨hae.symm, a, ha, url, hurl, hdata, hc⟩
  · rintro ⟨rfl, a, ha, url, hurl, hdata, hc⟩
    unfold generateApp
    cases hd : decodeAttachments (attachments.getD []) with
    | ok files =>
      exfalso
      obtain ⟨file, hfile⟩ := decodeAttachments_ok_all _ files hd a ha
      rw [decodeAttachment_error_of_no_comma a url hurl hdata hc] at hfile
      simp at hfile
    | error e1 =>
      simp only [Except.error.injEq]
      obtain ⟨x, _, hxe⟩ := decodeAttachments_error _ _ hd
      by_cases hok : ∀ url, x.url = some url → startsWith url (js "data:") = true → 44 ∈ url
      · obtain ⟨file, hfile⟩ := decodeAttachment_ok_of_comma x hok
        rw [hfile] at hxe
        simp at hxe
      · simp only [not_forall] at hok
        obtain ⟨url1, hurl1, hdata1, hc1⟩ := hok
        rw [decodeAttachment_error_of_no_comma x url1 hurl1 hdata1 hc1] at hxe
        simp only [Except.error.injEq] at hxe
        exact hxe.symm

/-! ## Content generation: the sales page -/

/-- C11, the failing input: for a brief containing `sales` and an attachment list with
exactly one attachment named `*.csv`, given as a base64 data URI of
`Product,Sales\nWidget,100\nGadget,50`, and one more attachment whose URL is
`data:text/plain;base64` (no comma), `generateApp` returns no file set: `Buffer.from`
throws on the missing data, and the handler reports `success: false` without any
external call. -/
theorem generateApp_throws_on_data_url_without_comma :
    generateApp sampleWorld.mathRandomBase36 sampleWorld.fullYear sampleTask.brief
        (some malformedAttachments) none = .error bufferFromUndefinedError ∧
    handlePost sampleConfig sampleWorld { sampleTask with attachments := some malformedAttachments } =
      (200, { success := false, message := none, data := none,
              error := some bufferFromUndefinedError.message }) ∧
    (processTask sampleConfig sampleWorld
      { sampleTask with attachments := some malformedAttachments }).calls = [] := by
  refine ⟨rfl, rfl, rfl⟩

set_option maxRecDepth 100000 in
theorem generateSalesSummaryText_delimiters :
    endsWith (js generateSalesSummaryText0) (js "const csvData = \x60") = true ∧
    startsWith (js generateSalesSummaryText1) (js "\x60;") = true := by
  constructor <;> rfl

set_option maxRecDepth 100000 in
theorem generateApp_embeds_csv_scenario :
    includes (toLowerCase sampleTask.brief) (js "sales") = true ∧
    generateApp sampleWorld.mathRandomBase36 sampleWorld.fullYear sampleTask.brief
        sampleTask.attachments sampleTask.checks =
      .ok [(js "index.html",
              js generateSalesSummaryText0 ++ js "Product,Sales\nWidget,100\nGadget,50" ++
                js generateSalesSummaryText1),
           (js "README.md", generateReadme sampleTask.brief),
           (js "LICENSE", getMITLicense sampleWorld.fullYear)] :=
  ⟨by decide,
   generateApp_embeds_csv sampleWorld.mathRandomBase36 sampleWorld.fullYear sampleTask.brief
    (js "data.csv") (js "data:text/csv;base64") "Product,Sales\nWidget,100\nGadget,50" [] []
    sampleTask.checks (by decide) (by decide) (by decide) (by decide) (by decide)
    (fun a ha => by simp at ha) (fun a ha => by simp at ha)⟩


/-! ## Content generation: dependence on the random source and the date -/

theorem getMITLicense_injective (year1 year2 : Nat)
    (h : getMITLicense year1 = getMITLicense year2) : year1 = year2 := by
  unfold getMITLicense at h
  rw [List.append_assoc, List.append_assoc] at h
  exact numberToString_injective (List.append_cancel_right (List.append_cancel_left h))

theorem generateGitHubUserApp_seed (rand1 rand2 : JSString) (files1 files2 : List AttachmentFile)
    (h : generateGitHubUserApp rand1 files1 = generateGitHubUserApp rand2 files2) :
    (rand1.drop 2).take 9 = (rand2.drop 2).take 9 := by
  unfold generateGitHubUserApp at h
  simp only [List.append_assoc] at h
  have hlen := congrArg List.length h
  simp only [List.length_append] at hlen
  exact (List.append_inj (List.append_cancel_left h) (by omega)).1

theorem generateHTMLFromBrief_of_github (rand brief : JSString) (files : List AttachmentFile)
    (checks : List JSString) (h : selectsGitHubUserApp brief = true) :
    generateHTMLFromBrief rand brief files checks = generateGitHubUserApp rand files := by
  unfold selectsGitHubUserApp at h
  unfold generateHTMLFromBrief
  cases h1 : includes (toLowerCase brief) (js "captcha") <;>
    cases h2 : includes (toLowerCase brief) (js "sales") <;>
    cases h3 : includes (toLowerCase brief) (js "csv") <;>
    cases h4 : includes (toLowerCase brief) (js "markdown") <;>
    cases h5 : includes (toLowerCase brief) (js "github") <;>
    simp [h1, h2, h3, h4, h5] at h ⊢

theorem generateHTMLFromBrief_of_not_github (rand1 rand2 brief : JSString)
    (files : List AttachmentFile) (checks : List JSString)
    (h : selectsGitHubUserApp brief = false) :
    generateHTMLFromBrief rand1 brief files checks =
      generateHTMLFromBrief rand2 brief files checks := by
  unfold selectsGitHubUserApp at h
  unfold generateHTMLFromBrief
  cases h1 : includes (toLowerCase brief) (js "captcha") <;>
    cases h2 : includes (toLowerCase brief) (js "sales") <;>
    cases h3 : includes (toLowerCase brief) (js "csv") <;>
    cases h4 : includes (toLowerCase brief) (js "markdown") <;>
    cases h5 : includes (toLowerCase brief) (js "github") <;>
    simp [h1, h2, h3, h4, h5] at h ⊢

theorem generateHTMLFromBrief_of_seed (rand1 rand2 brief : JSString)
    (files : List AttachmentFile) (checks : List JSString)
    (h : (rand1.drop 2).take 9 = (rand2.drop 2).take 9) :
    generateHTMLFromBrief rand1 brief files checks =
      generateHTMLFromBrief rand2 brief files checks := by
  unfold generateHTMLFromBrief generateGitHubUserApp
  simp only [h]

theorem generateApp_none (rand : JSString) (year : Nat) (brief : JSString)
    (checks : Option (List JSString)) :
    generateApp rand year brief none checks =
      .ok [(js "index.html", generateHTMLFromBrief rand brief [] (checks.getD [])),
           (js "README.md", generateReadme brief),
           (js "LICENSE", getMITLicense year)] := rfl

/-- C12 as stated fails: two invocations of `generateApp` with the same brief,
attachments and checks return different file sets when the year differs (the LICENSE
embeds `getFullYear()`), and when the brief selects the GitHub page and `Math.random()`
differs (the page embeds the random seed). -/
theorem generateApp_not_pure :
    generateApp (js "0.4fzyo82mvyr") 2025 (js "Show a sales summary") none none ≠
      generateApp (js "0.4fzyo82mvyr") 2026 (js "Show a sales summary") none none ∧
    generateApp (js "0.4fzyo82mvyr") 2025 (js "Show a GitHub user") none none ≠
      generateApp (js "0.9x1c3v5b7n2") 2025 (js "Show a GitHub user") none none := by
  constructor
  · intro h
    rw [generateApp_none, generateApp_none] at h
    simp only [Except.ok.injEq, List.cons.injEq, Prod.mk.injEq, and_true, true_and] at h
    exact absurd (getMITLicense_injective 2025 2026 h) (by decide)
  · intro h
    rw [generateApp_none, generateApp_none,
      generateHTMLFromBrief_of_github _ _ _ _ (by decide),
      generateHTMLFromBrief_of_github _ _ _ _ (by decide)] at h
    simp only [Except.ok.injEq, List.cons.injEq, Prod.mk.injEq, and_true, true_and] at h
    exact absurd (generateGitHubUserApp_seed _ _ _ _ h) (by decide)

/-- C12, amended: the outcome of `generateApp` is a function of its arguments, of the
value of `Math.random()` and of the year.  For every brief, attachment list and check
list: whether it throws, and what, depends on neither; two returned file sets have
the same `README.md`, the same `LICENSE` exactly when the years are equal, and the
same `index.html` whenever the random seeds are equal or the brief does not select the
GitHub page; with the same random value and year the two outcomes are equal. -/
theorem generateApp_random_and_date (rand1 rand2 : JSString) (year1 year2 : Nat)
    (brief : JSString) (attachments : Option (List Attachment))
    (checks : Option (List JSString)) :
    (∀ e, generateApp rand1 year1 brief attachments checks = .error e ↔
      generateApp rand2 year2 brief attachments checks = .error e) ∧
    (∀ files1 files2,
      generateApp rand1 year1 brief attachments checks = .ok files1 →
      generateApp rand2 year2 brief attachments checks = .ok files2 →
      ∃ html1 html2 readme license1 license2,
        files1 = [(js "index.html", html1), (js "README.md", readme), (js "LICENSE", license1)] ∧
        files2 = [(js "index.html", html2), (js "README.md", readme), (js "LICENSE", license2)] ∧
        (license1 = license2 ↔ year1 = year2) ∧
        ((rand1.drop 2).take 9 = (rand2.drop 2).take 9 → html1 = html2) ∧
        (selectsGitHubUserApp brief = false → html1 = html2)) ∧
    (rand1 = rand2 → year1 = year2 →
      generateApp rand1 year1 brief attachments checks =
        generateApp rand2 year2 brief attachments checks) := by
  refine ⟨?_, ?_, ?_⟩
  · intro e
    rw [generateApp_error_iff, generateApp_error_iff]
  · intro files1 files2 h1 h2
    unfold generateApp at h1 h2
    cases hd : decodeAttachments (attachments.getD []) with
    | error e => rw [hd] at h1; simp at h1
    | ok attachmentFiles =>
      rw [hd] at h1 h2
      simp only [Except.ok.injEq] at h1 h2
      refine ⟨_, _, _, _, _, h1.symm, h2.symm, ?_, ?_, ?_⟩
      · exact ⟨getMITLicense_injective _ _, fun h => by rw [h]⟩
      · exact generateHTMLFromBrief_of_seed _ _ _ _ _
      · exact generateHTMLFromBrief_of_not_github _ _ _ _ _
  · intro hr hy
    rw [hr, hy]

/-! ## The module as shipped -/

theorem loadModule_throws : loadModule = .error moduleSyntaxError := by
  rfl

theorem shippedProcessTask_none (cfg : Config) (w : World) (taskData : TaskData) :
    shippedProcessTask cfg w taskData = none := by
  unfold shippedProcessTask
  rw [loadModule_throws]

theorem shippedSendToEvaluationUrl_none (w : World) (url : JSString) (data : ResponseData) :
    shippedSendToEvaluationUrl w url data = none := by
  unfold shippedSendToEvaluationUrl
  rw [loadModule_throws]

theorem shippedHandlePost_none (cfg : Config) (w : World) (body : TaskData) :
    shippedHandlePost cfg w body = none := by
  unfold shippedHandlePost
  rw [loadModule_throws]

/-- C1, the file as shipped at the failing input: loading the module throws
`SyntaxError` (lines 508, 554, 560, 624, 625), so a request whose secret is `guess`
instead of the configured `s3cret` is never handled: no `Invalid secret` error is
produced, where the repaired program produces it. -/
theorem shipped_invalid_secret_unanswered :
    loadModule = .error moduleSyntaxError ∧
    shippedProcessTask sampleConfig sampleWorld { sampleTask with secret := js "guess" } = none ∧
    (processTask sampleConfig sampleWorld { sampleTask with secret := js "guess" }).result =
      .error ⟨js "Invalid secret"⟩ :=
  ⟨loadModule_throws, shippedProcessTask_none _ _ _, rfl⟩

/-- C2, the file as shipped at the failing inputs: with a provider that rejects the
repository creation, the write of `README.md`, or reports no commit, the authorized
sample request is never handled, so `processTask` does not fail with an error of its
own, where the repaired program fails with the provider's error. -/
theorem shipped_fatal_step_unanswered :
    shippedProcessTask sampleConfig createFailsWorld sampleTask = none ∧
    shippedProcessTask sampleConfig writeFailsWorld sampleTask = none ∧
    shippedProcessTask sampleConfig noCommitWorld sampleTask = none ∧
    (processTask sampleConfig createFailsWorld sampleTask).result = .error sampleError :=
  ⟨shippedProcessTask_none _ _ _, shippedProcessTask_none _ _ _, shippedProcessTask_none _ _ _,
    rfl⟩

/-- C3, the file as shipped at the failing input: with a provider that refuses to
enable hosting and answers every other call with success, the authorized sample
request is never handled: no commit lookup is performed and no Provisioning Result is
returned, where the repaired program returns one. -/
theorem shipped_hosting_failure_unanswered :
    shippedProcessTask sampleConfig hostingFailsWorld sampleTask = none ∧
    (processTask sampleConfig hostingFailsWorld sampleTask).result =
      .ok (responseData sampleConfig sampleTask
        (repoName sampleTask.task hostingFailsWorld.dateNow) (js "9fceb02")) :=
  ⟨shippedProcessTask_none _ _ _, rfl⟩

/-- C4, the file as shipped at the failing input: with an evaluation URL that is never
reachable the shipped module makes no POST and no wait at all, where the claim (and
the repaired program) has exactly 5 POSTs and the waits 1000, 2000, 4000, 8000 ms. -/
theorem shipped_notification_never_posts :
    shippedSendToEvaluationUrl unreachableWorld sampleTask.evaluation_url
      (responseData sampleConfig sampleTask (js "repo") (js "9fceb02")) = none ∧
    ((sendToEvaluationUrl unreachableWorld sampleTask.evaluation_url
      (responseData sampleConfig sampleTask (js "repo") (js "9fceb02"))).calls.filter
        Call.isFetchPost).length = 5 :=
  ⟨shippedSendToEvaluationUrl_none _ _ _, rfl⟩

/-- C5, the file as shipped at the failing input: with an evaluation URL that is never
reachable the handler of the shipped module answers nothing, where the claim (and the
repaired program) has status 200 with `success: true`. -/
theorem shipped_handler_unanswered :
    shippedHandlePost sampleConfig unreachableWorld sampleTask = none ∧
    (handlePost sampleConfig unreachableWorld sampleTask).2.success = true :=
  ⟨shippedHandlePost_none _ _ _, rfl⟩

/-- C6, the file as shipped at the failing input: in a world where every provider call
and the first POST succeed, the authorized sample request is never handled and no
external call is issued, where the claim (and the repaired program) has 7 calls. -/
theorem shipped_call_sequence_empty :
    shippedProcessTask sampleConfig sampleWorld sampleTask = none ∧
    (processTask sampleConfig sampleWorld sampleTask).calls.length = 7 :=
  ⟨shippedProcessTask_none _ _ _, rfl⟩

/-- C7, the file as shipped at the failing input: for the sample request without
attachments, in a world where every provider call succeeds, the shipped module returns
no Provisioning Result, where the repaired program returns the one of the claim. -/
theorem shipped_result_missing :
    shippedProcessTask sampleConfig sampleWorld { sampleTask with attachments := none } = none ∧
    shippedHandlePost sampleConfig sampleWorld { sampleTask with attachments := none } = none ∧
    (processTask sampleConfig sampleWorld { sampleTask with attachments := none }).result =
      .ok (responseData sampleConfig sampleTask (js "My-Task---1700000000000") (js "9fceb02")) :=
  ⟨shippedProcessTask_none _ _ _, shippedHandlePost_none _ _ _, rfl⟩

end Server
